import Mathlib

/-
  Verification of the verified-boot kernel-selection core (vboot).

  Shallow embedding of src/firmware/lib/vboot_kernel.c and
  src/firmware/lib/gpt_misc.c.  External collaborators (disk I/O, the RSA
  and SHA primitives, the GPT library calls GptInit / GptNextKernelEntry /
  GptUpdateKernelEntry, GBB access and NV storage) are modelled as oracle
  inputs in the environment: each call site of LoadKernel receives the
  outcome the collaborator would have produced, and LoadKernel's own control
  flow over those outcomes is translated statement by statement.
-/

namespace Vboot

/- Constants from the source (vboot_kernel.c, gpt_misc.h, vboot_nvstorage.h,
   load_kernel_fw.h). -/

def KBUF_SIZE : Nat := 65536
def LOWEST_TPM_VERSION : Nat := 0xffffffff
def TOTAL_ENTRIES_SIZE : Nat := 16384

def GPT_MODIFIED_HEADER1 : Nat := 0x01
def GPT_MODIFIED_HEADER2 : Nat := 0x02
def GPT_MODIFIED_ENTRIES1 : Nat := 0x04
def GPT_MODIFIED_ENTRIES2 : Nat := 0x08

def BOOT_FLAG_DEVELOPER : Nat := 0x01
def BOOT_FLAG_RECOVERY : Nat := 0x02

def KEY_BLOCK_FLAG_DEVELOPER_0 : Nat := 0x01
def KEY_BLOCK_FLAG_DEVELOPER_1 : Nat := 0x02
def KEY_BLOCK_FLAG_RECOVERY_0 : Nat := 0x04
def KEY_BLOCK_FLAG_RECOVERY_1 : Nat := 0x08

def VBNV_RECOVERY_NOT_REQUESTED : Nat := 0x00
def VBNV_RECOVERY_RW_NO_OS : Nat := 0x42
def VBNV_RECOVERY_RW_INVALID_OS : Nat := 0x43
/- VBNV_RECOVERY_LK_UNSPECIFIED is declared in the upstream load_kernel_fw.h
   variant used by vboot_kernel.c (not among the headers under src/); its
   numeric value is irrelevant to the claims, only its identity. -/
def VBNV_RECOVERY_LK_UNSPECIFIED : Nat := 0x60

/- VBSD_KERNEL_KEY_VERIFIED bit of shared->flags (vboot_struct.h, not under
   src/); exact value irrelevant, only which bit is ORed in. -/
def VBSD_KERNEL_KEY_VERIFIED : Nat := 0x10

/-- Return codes of LoadKernel (VbError_t values of vboot_api.h, modelled as
an enumeration; gbbFailure carries the nonzero code propagated from
VbGbbReadRecoveryKey). -/
inductive VbError where
  | success
  | unknown
  | invalidParameter
  | invalidKernelFound
  | noKernelFound
  | gbbFailure (code : Nat)
deriving DecidableEq, Repr

/-- BootMode enumeration of vboot_kernel.c. -/
inductive BootMode where
  | recovery
  | normal
  | dev
deriving DecidableEq, Repr

/-- The VBSD_LKP_CHECK_* codes stored in shpart->check_result. -/
inductive LkpCheck where
  | notDone
  | tooSmall
  | readStart
  | keyBlockSig
  | selfSigned
  | keyBlockHash
  | devMismatch
  | recMismatch
  | keyRollback
  | dataKeyParse
  | verifyPreamble
  | kernelRollback
  | preambleValid
  | bodyOffset
  | bodyExceedsMem
  | bodyExceedsPart
  | readData
  | verifyData
  | kernelGood
deriving DecidableEq, Repr

/-- The VBSD_LKC_CHECK_* codes stored in shcall->check_result. -/
inductive LkcCheck where
  | notDone
  | gptReadError
  | gptParseError
  | goodPartition
  | invalidPartitions
  | noPartitions
deriving DecidableEq, Repr

/-- The two update types passed to GptUpdateKernelEntry. -/
inductive GptUpdateType where
  | updateTry
  | updateBad
deriving DecidableEq, Repr

/-- Which trusted sub-key LoadKernel hands to KeyBlockVerify. -/
inductive SubkeySource where
  | noneYet
  | recoveryGbb
  | firmwareShared
deriving DecidableEq, Repr

/-- One candidate kernel partition as yielded by GptNextKernelEntry, paired
with the outcomes of the collaborator calls LoadKernel makes while examining
it (disk reads, KeyBlockVerify in signature and hash mode, PublicKeyToRSA,
VerifyKernelPreamble, VerifyData) and the self-described fields of its key
block and preamble that LoadKernel reads. -/
structure Cand where
  gptIndex : Nat
  partStart : Nat
  partSize : Nat
  readStartOk : Bool
  kbSigOk : Bool
  kbHashOk : Bool
  kbFlags : Nat
  kbKeyVersion : Nat
  kbSize : Nat
  dataKeyOk : Bool
  preambleOk : Bool
  preKernelVersion : Nat
  preSize : Nat
  bodyDataSize : Nat
  bodyLoadAddress : Nat
  bootloaderAddress : Nat
  bootloaderSize : Nat
  readBodyOk : Bool
  bodyVerifyOk : Bool
deriving DecidableEq, Repr

/-- combined_version as computed at vboot_kernel.c:434, a uint32 cast of
(key_version << 16) | (preamble->kernel_version & 0xFFFF). -/
def candCombined (c : Cand) : Nat :=
  ((c.kbKeyVersion <<< 16) ||| (c.preKernelVersion &&& 0xFFFF)) % 2 ^ 32

/-- The call environment of LoadKernel: LoadKernelParams fields, shared data
on entry, NV state, and the oracle outcomes of collaborator calls.  The
fields nvRecoveryRequestIn, gbbForceDevOn and prevBootFailed are part of the
platform state but, as the theorems show, never read by LoadKernel. -/
structure LKEnv where
  bytesPerLba : Nat
  endingLba : Nat
  bootFlags : Nat
  kernelBufferIn : Nat
  kernelBufferSizeIn : Nat
  partitionNumberIn : Nat
  bootloaderAddressIn : Nat
  bootloaderSizeIn : Nat
  nvDevBootSignedOnly : Nat
  nvRecoveryRequestIn : Nat
  gbbForceDevOn : Bool
  prevBootFailed : Bool
  gbbRecoveryKeyErr : Nat
  sharedKernelVersionTpm : Nat
  sharedKernelVersionLowestIn : Nat
  sharedFlagsIn : Nat
  gptReadOk : Bool
  gptInitOk : Bool
  cands : List Cand
deriving DecidableEq, Repr

/-- One record of shcall->parts (VbSharedDataKernelPart). -/
structure ShPart where
  gptIndex : Nat
  sectorStart : Nat
  sectorCount : Nat
  checkResult : LkpCheck
  combinedVersion : Nat
  kbValidFlag : Bool
deriving DecidableEq, Repr

/-- Everything observable about one LoadKernel call: return value, NV write,
shared-data updates, the diagnostic records, and the sequence of GPT entry
updates and disk accesses it performed. -/
structure LKResult where
  retval : VbError
  nvRecoveryRequest : Nat
  shcallRecorded : Bool
  bootMode : BootMode
  subkeySource : SubkeySource
  checkResult : LkcCheck
  partsFound : Nat
  foundPartitions : Nat
  goodPartition : Int
  goodScanPos : Option Nat
  goodKbv : Bool
  goodCombined : Nat
  kernelVersionTpm : Nat
  kernelVersionLowest : Nat
  sharedFlags : Nat
  parts : List ShPart
  gptEvents : List (Nat × GptUpdateType)
  bodyReadPositions : List Nat
  gptReadAttempted : Bool
  wroteGpt : Bool
  partitionNumber : Nat
  bootloaderAddress : Nat
  bootloaderSize : Nat
deriving DecidableEq, Repr

/-- The values LoadKernel computes before the scan loop and keeps fixed
during it. -/
structure LKGlobals where
  recSwitch : Bool
  devSwitch : Bool
  bootMode : BootMode
  requireOfficialOs : Nat
  tpm : Nat
  kbufSectors : Nat
  blba : Nat
deriving DecidableEq, Repr

/-- A flat description of what happens while LoadKernel examines one
candidate: the final check_result of its diagnostic record, whether
combined_version was recorded there, which GptUpdateKernelEntry call (if
any) was made, whether a kernel-body disk read was issued, whether the
candidate became the good partition, key_block_valid at the
version-tracking point, whether the candidate contributes to
lowest_version, whether the loop breaks, and the kernel buffer state left
for the next candidate. -/
structure CandStep where
  check : LkpCheck
  combinedRec : Bool
  event : Option GptUpdateType
  bodyRead : Bool
  good : Bool
  kbv : Bool
  counts : Bool
  brk : Bool
  kbOut : Nat
  kbsOut : Nat
  kbvFlagRec : Bool
deriving DecidableEq, Repr

/-- Outcome of examining a candidate up to the version-tracking point
(vboot_kernel.c:316-450): either a bad_kernel exit with the recorded
check_result (and whether combined_version had already been stored in the
diagnostic record), or fall-through carrying key_block_valid. -/
inductive PrePhase where
  | badPre (check : LkpCheck) (combinedRec : Bool)
  | through (kbv : Bool)
deriving DecidableEq, Repr

/-- Whether the dev-flag check of vboot_kernel.c:367-369 passes. -/
def devFlagOk (g : LKGlobals) (c : Cand) : Bool :=
  decide ((c.kbFlags &&&
    (if g.devSwitch then KEY_BLOCK_FLAG_DEVELOPER_1
     else KEY_BLOCK_FLAG_DEVELOPER_0)) ≠ 0)

/-- Whether the recovery-flag check of vboot_kernel.c:374-376 passes. -/
def recFlagOk (g : LKGlobals) (c : Cand) : Bool :=
  decide ((c.kbFlags &&&
    (if g.recSwitch then KEY_BLOCK_FLAG_RECOVERY_1
     else KEY_BLOCK_FLAG_RECOVERY_0)) ≠ 0)

/-- Whether the key-version checks of vboot_kernel.c:384-402 clear
key_block_valid (skipped entirely in recovery mode). -/
def keyRollbackFail (g : LKGlobals) (c : Cand) : Bool :=
  if g.bootMode = BootMode.recovery then false
  else decide (c.kbKeyVersion < g.tpm >>> 16) ||
       decide (c.kbKeyVersion > 0xFFFF)

/-- key_block_valid after the flag and key-version checks
(vboot_kernel.c:330-402), given the signature check outcome. -/
def candKbvDef (g : LKGlobals) (c : Cand) : Bool :=
  c.kbSigOk && devFlagOk g c && recFlagOk g c && !keyRollbackFail g c

/-- The check_result value accumulated by the flag and key-version checks
(the last failed check wins, in source order dev, rec, key-version). -/
def candKbCheck (g : LKGlobals) (c : Cand) : LkpCheck :=
  if keyRollbackFail g c then LkpCheck.keyRollback
  else if recFlagOk g c = false then LkpCheck.recMismatch
  else if devFlagOk g c = false then LkpCheck.devMismatch
  else if c.kbSigOk then LkpCheck.notDone else LkpCheck.keyBlockSig

/-- The size check, start-of-partition read, key block verification (with
the developer-mode hash fallback), key block flag checks, key-version
rollback check, data key parse, preamble verification and combined-version
rollback check of vboot_kernel.c:316-450, in source order. -/
def prePhase (g : LKGlobals) (c : Cand) : PrePhase :=
  if c.partSize < g.kbufSectors then PrePhase.badPre LkpCheck.tooSmall false
  else if c.readStartOk = false then
    PrePhase.badPre LkpCheck.readStart false
  else if c.kbSigOk = false ∧ g.bootMode ≠ BootMode.dev then
    PrePhase.badPre LkpCheck.keyBlockSig false
  else if c.kbSigOk = false ∧ g.requireOfficialOs ≠ 0 then
    PrePhase.badPre LkpCheck.selfSigned false
  else if c.kbSigOk = false ∧ c.kbHashOk = false then
    PrePhase.badPre LkpCheck.keyBlockHash false
  else if g.bootMode ≠ BootMode.dev ∧ candKbvDef g c = false then
    PrePhase.badPre (candKbCheck g c) false
  else if c.dataKeyOk = false then
    PrePhase.badPre LkpCheck.dataKeyParse false
  else if c.preambleOk = false then
    PrePhase.badPre LkpCheck.verifyPreamble false
  else if candKbvDef g c = true ∧ g.bootMode ≠ BootMode.recovery ∧
          candCombined c < g.tpm ∧ g.bootMode ≠ BootMode.dev then
    PrePhase.badPre LkpCheck.kernelRollback true
  else PrePhase.through (candKbvDef g c)

/-- The per-candidate body of the scan loop of LoadKernel
(vboot_kernel.c:280-592).  goodExists is whether good_partition was
already set (-1 check at line 469); kb and kbs are params->kernel_buffer
and params->kernel_buffer_size on entry to this iteration.  The body-fit
checks, body read and body verification of lines 472-581 follow the
pre-phase. -/
def candStep (g : LKGlobals) (goodExists : Bool) (kb kbs : Nat) (c : Cand) :
    CandStep :=
  let noStep : CandStep :=
    { check := LkpCheck.notDone, combinedRec := false, event := none,
      bodyRead := false, good := false, kbv := false, counts := false,
      brk := false, kbOut := kb, kbsOut := kbs, kbvFlagRec := false }
  match prePhase g c with
  | PrePhase.badPre ch cr =>
    { noStep with check := ch, combinedRec := cr,
                  event := some GptUpdateType.updateBad }
  | PrePhase.through kbv =>
    let base :=
      { noStep with check := LkpCheck.preambleValid, combinedRec := true,
                    kbv := kbv, counts := kbv }
    if goodExists then base
    else
      let bodyOffset := c.kbSize + c.preSize
      if bodyOffset % g.blba ≠ 0 then
        { base with check := LkpCheck.bodyOffset,
                    event := some GptUpdateType.updateBad }
      else
        let bodyOffsetSectors := bodyOffset / g.blba
        let bodySectors := (c.bodyDataSize + g.blba - 1) / g.blba
        let base :=
          { base with
            kbOut := if kb = 0 then c.bodyLoadAddress else kb,
            kbsOut := if kb = 0 then bodySectors * g.blba else kbs }
        if kb ≠ 0 ∧ bodySectors * g.blba > kbs then
          { base with check := LkpCheck.bodyExceedsMem,
                      event := some GptUpdateType.updateBad }
        else if bodyOffsetSectors + bodySectors > c.partSize then
          { base with check := LkpCheck.bodyExceedsPart,
                      event := some GptUpdateType.updateBad }
        else if c.readBodyOk = false then
          { base with check := LkpCheck.readData,
                      event := some GptUpdateType.updateBad,
                      bodyRead := true }
        else if c.bodyVerifyOk = false then
          { base with check := LkpCheck.verifyData,
                      event := some GptUpdateType.updateBad,
                      bodyRead := true }
        else
          { base with check := LkpCheck.kernelGood, kbvFlagRec := kbv,
                      good := true, bodyRead := true,
                      event := some GptUpdateType.updateTry,
                      brk := decide (g.bootMode = BootMode.recovery) ||
                             !kbv ||
                             decide (candCombined c = g.tpm) }

/-- Loop state threaded through the candidate scan. -/
structure LoopSt where
  foundPartitions : Nat
  goodPartition : Int
  goodKbv : Bool
  goodScanPos : Option Nat
  goodCombined : Nat
  lowestVersion : Nat
  partsFound : Nat
  parts : List ShPart
  gptEvents : List (Nat × GptUpdateType)
  bodyReadPositions : List Nat
  kernelBuffer : Nat
  kernelBufferSize : Nat
  partitionNumber : Nat
  bootloaderAddress : Nat
  bootloaderSize : Nat
deriving DecidableEq, Repr

/-- Fold one candidate outcome into the loop state. -/
def applyStep (st : LoopSt) (c : Cand) (s : CandStep) : LoopSt × Bool :=
  let pos := st.partsFound
  let part : ShPart :=
    { gptIndex := c.gptIndex + 1, sectorStart := c.partStart,
      sectorCount := c.partSize, checkResult := s.check,
      combinedVersion := if s.combinedRec then candCombined c else 0,
      kbValidFlag := s.kbvFlagRec }
  ({ st with
     partsFound := pos + 1,
     foundPartitions := st.foundPartitions + 1,
     parts := st.parts ++ [part],
     gptEvents := st.gptEvents ++
       (match s.event with
        | some ev => [(c.gptIndex, ev)]
        | none => []),
     bodyReadPositions := st.bodyReadPositions ++
       (if s.bodyRead then [pos] else []),
     lowestVersion :=
       if s.counts = true ∧ st.lowestVersion > candCombined c then
         candCombined c
       else st.lowestVersion,
     goodPartition :=
       if s.good then Int.ofNat (c.gptIndex + 1) else st.goodPartition,
     goodKbv := if s.good then s.kbv else st.goodKbv,
     goodScanPos := if s.good then some pos else st.goodScanPos,
     goodCombined := if s.good then candCombined c else st.goodCombined,
     partitionNumber := if s.good then c.gptIndex + 1 else st.partitionNumber,
     bootloaderAddress :=
       if s.good then c.bootloaderAddress else st.bootloaderAddress,
     bootloaderSize :=
       if s.good then c.bootloaderSize else st.bootloaderSize,
     kernelBuffer := s.kbOut,
     kernelBufferSize := s.kbsOut }, s.brk)

/-- One iteration of the scan loop. -/
def processCand (g : LKGlobals) (st : LoopSt) (c : Cand) : LoopSt × Bool :=
  applyStep st c
    (candStep g (decide (st.goodPartition ≠ -1)) st.kernelBuffer
      st.kernelBufferSize c)

/-- The scan loop of LoadKernel over the sequence of candidates yielded by
GptNextKernelEntry, with break. -/
def runLoop (g : LKGlobals) (st : LoopSt) : List Cand → LoopSt
  | [] => st
  | c :: rest =>
    let r := processCand g st c
    if r.2 then r.1 else runLoop g r.1 rest

/-- The pre-loop globals LoadKernel computes (vboot_kernel.c:213-245). -/
def lkGlobals (e : LKEnv) : LKGlobals :=
  let recSwitch : Bool := decide ((e.bootFlags &&& BOOT_FLAG_RECOVERY) ≠ 0)
  let devSwitch : Bool := decide ((e.bootFlags &&& BOOT_FLAG_DEVELOPER) ≠ 0)
  let bootMode :=
    if recSwitch then BootMode.recovery
    else if devSwitch then BootMode.dev
    else BootMode.normal
  { recSwitch := recSwitch, devSwitch := devSwitch, bootMode := bootMode,
    requireOfficialOs :=
      if bootMode = BootMode.dev then e.nvDevBootSignedOnly else 0,
    tpm := e.sharedKernelVersionTpm,
    kbufSectors := KBUF_SIZE / e.bytesPerLba,
    blba := e.bytesPerLba }

/-- Initial loop state for a LoadKernel call. -/
def initLoopSt (e : LKEnv) : LoopSt :=
  { foundPartitions := 0, goodPartition := -1, goodKbv := false,
    goodScanPos := none, goodCombined := 0,
    lowestVersion := LOWEST_TPM_VERSION, partsFound := 0, parts := [],
    gptEvents := [], bodyReadPositions := [],
    kernelBuffer := e.kernelBufferIn,
    kernelBufferSize := e.kernelBufferSizeIn,
    partitionNumber := 0, bootloaderAddress := 0, bootloaderSize := 0 }

/-- The loop state after the candidate scan: the loop runs only when both
AllocAndReadGptData and GptInit succeeded; otherwise control reaches the
common epilogue with the scan never entered (bad_gpt label). -/
def lkStF (e : LKEnv) : LoopSt :=
  if e.gptReadOk = true ∧ e.gptInitOk = true then
    runLoop (lkGlobals e) (initLoopSt e) e.cands
  else initLoopSt e

/-- The main path of LoadKernel after the parameter, sector-size and
recovery-key checks: GPT read, candidate scan, and the common epilogue of
vboot_kernel.c:594-653. -/
def lkMain (e : LKEnv) : LKResult :=
  let g := lkGlobals e
  let subkeySource :=
    if g.bootMode = BootMode.recovery then SubkeySource.recoveryGbb
    else SubkeySource.firmwareShared
  let stF := lkStF e
  let goodFound : Bool := decide (0 ≤ stF.goodPartition)
  let tpmOut :=
    if goodFound = true ∧ stF.lowestVersion ≠ LOWEST_TPM_VERSION ∧
       stF.lowestVersion > e.sharedKernelVersionTpm then
      stF.lowestVersion
    else e.sharedKernelVersionTpm
  let lowestOut :=
    if goodFound then stF.lowestVersion
    else e.sharedKernelVersionLowestIn
  let checkR :=
    if goodFound then LkcCheck.goodPartition
    else if 0 < stF.foundPartitions then LkcCheck.invalidPartitions
    else LkcCheck.noPartitions
  let retval :=
    if goodFound then VbError.success
    else if 0 < stF.foundPartitions then VbError.invalidKernelFound
    else VbError.noKernelFound
  let recovery :=
    if goodFound then VBNV_RECOVERY_LK_UNSPECIFIED
    else if 0 < stF.foundPartitions then VBNV_RECOVERY_RW_INVALID_OS
    else VBNV_RECOVERY_RW_NO_OS
  { retval := retval,
    nvRecoveryRequest :=
      if retval = VbError.success then VBNV_RECOVERY_NOT_REQUESTED
      else recovery,
    shcallRecorded := true, bootMode := g.bootMode,
    subkeySource := subkeySource, checkResult := checkR,
    partsFound := stF.partsFound,
    foundPartitions := stF.foundPartitions,
    goodPartition := stF.goodPartition,
    goodScanPos := stF.goodScanPos, goodKbv := stF.goodKbv,
    goodCombined := stF.goodCombined,
    kernelVersionTpm := tpmOut, kernelVersionLowest := lowestOut,
    sharedFlags :=
      if stF.goodKbv then e.sharedFlagsIn ||| VBSD_KERNEL_KEY_VERIFIED
      else e.sharedFlagsIn,
    parts := stF.parts, gptEvents := stF.gptEvents,
    bodyReadPositions := stF.bodyReadPositions,
    gptReadAttempted := true, wroteGpt := true,
    partitionNumber := stF.partitionNumber,
    bootloaderAddress := stF.bootloaderAddress,
    bootloaderSize := stF.bootloaderSize }

/-- LoadKernel of vboot_kernel.c:176-654, as a function from the call
environment to its observable outcome. -/
def LoadKernel (e : LKEnv) : LKResult :=
  if e.bytesPerLba = 0 ∨ e.endingLba = 0 then
    /- Sanity check at line 201: exit before clearing outputs, computing the
       boot mode, recording shcall, or touching the disk. -/
    { retval := VbError.invalidParameter,
      nvRecoveryRequest := VBNV_RECOVERY_LK_UNSPECIFIED,
      shcallRecorded := false, bootMode := BootMode.normal,
      subkeySource := SubkeySource.noneYet, checkResult := LkcCheck.notDone,
      partsFound := 0, foundPartitions := 0, goodPartition := -1,
      goodScanPos := none, goodKbv := false, goodCombined := 0,
      kernelVersionTpm := e.sharedKernelVersionTpm,
      kernelVersionLowest := e.sharedKernelVersionLowestIn,
      sharedFlags := e.sharedFlagsIn, parts := [], gptEvents := [],
      bodyReadPositions := [], gptReadAttempted := false, wroteGpt := false,
      partitionNumber := e.partitionNumberIn,
      bootloaderAddress := e.bootloaderAddressIn,
      bootloaderSize := e.bootloaderSizeIn }
  else
    if (lkGlobals e).kbufSectors = 0 then
      /- Sector size larger than KBUF_SIZE (line 241): exit after recording
         shcall but before any disk access. -/
      { retval := VbError.invalidParameter,
        nvRecoveryRequest := VBNV_RECOVERY_LK_UNSPECIFIED,
        shcallRecorded := true, bootMode := (lkGlobals e).bootMode,
        subkeySource := SubkeySource.noneYet, checkResult := LkcCheck.notDone,
        partsFound := 0, foundPartitions := 0, goodPartition := -1,
        goodScanPos := none, goodKbv := false, goodCombined := 0,
        kernelVersionTpm := e.sharedKernelVersionTpm,
        kernelVersionLowest := e.sharedKernelVersionLowestIn,
        sharedFlags := e.sharedFlagsIn, parts := [], gptEvents := [],
        bodyReadPositions := [], gptReadAttempted := false, wroteGpt := false,
        partitionNumber := 0, bootloaderAddress := 0, bootloaderSize := 0 }
    else if (lkGlobals e).bootMode = BootMode.recovery ∧
            e.gbbRecoveryKeyErr ≠ 0 then
      /- VbGbbReadRecoveryKey failed (line 249): propagate its code. -/
      { retval := VbError.gbbFailure e.gbbRecoveryKeyErr,
        nvRecoveryRequest := VBNV_RECOVERY_LK_UNSPECIFIED,
        shcallRecorded := true, bootMode := (lkGlobals e).bootMode,
        subkeySource := SubkeySource.noneYet, checkResult := LkcCheck.notDone,
        partsFound := 0, foundPartitions := 0, goodPartition := -1,
        goodScanPos := none, goodKbv := false, goodCombined := 0,
        kernelVersionTpm := e.sharedKernelVersionTpm,
        kernelVersionLowest := e.sharedKernelVersionLowestIn,
        sharedFlags := e.sharedFlagsIn, parts := [], gptEvents := [],
        bodyReadPositions := [], gptReadAttempted := false, wroteGpt := false,
        partitionNumber := 0, bootloaderAddress := 0, bootloaderSize := 0 }
    else lkMain e

/-! ## WriteAndFreeGptData (gpt_misc.c:89-180, textually identical copy in
vboot_kernel.c:83-174) -/

/-- The four GPT pieces, also naming the four heap buffers. -/
inductive WPiece where
  | header1
  | entries1
  | header2
  | entries2
deriving DecidableEq, Repr

/-- Environment of one WriteAndFreeGptData call: which of the four buffer
pointers are non-NULL, whether the primary header bytes carry the legacy
GPT_HEADER_SIGNATURE2, the modified bitmask, and the outcome each
VbExDiskWrite would have. -/
structure WEnv where
  present1h : Bool
  present1e : Bool
  present2h : Bool
  present2e : Bool
  legacySig : Bool
  modified : Nat
  writeOk1h : Bool
  writeOk1e : Bool
  writeOk2h : Bool
  writeOk2e : Bool
deriving DecidableEq, Repr

/-- Outcome a VbExDiskWrite of the given piece would have. -/
def wOk (e : WEnv) : WPiece → Bool
  | WPiece.header1 => e.writeOk1h
  | WPiece.entries1 => e.writeOk1e
  | WPiece.header2 => e.writeOk2h
  | WPiece.entries2 => e.writeOk2e

/-- Whether the buffer pointer for a piece is non-NULL. -/
def wPresent (e : WEnv) : WPiece → Bool
  | WPiece.header1 => e.present1h
  | WPiece.entries1 => e.present1e
  | WPiece.header2 => e.present2h
  | WPiece.entries2 => e.present2e

/-- The GPT_MODIFIED_* bit guarding each piece. -/
def wModBit : WPiece → Nat
  | WPiece.header1 => GPT_MODIFIED_HEADER1
  | WPiece.entries1 => GPT_MODIFIED_ENTRIES1
  | WPiece.header2 => GPT_MODIFIED_HEADER2
  | WPiece.entries2 => GPT_MODIFIED_ENTRIES2

/-- legacy as computed at gpt_misc.c:109-112: only examined when the
primary header buffer exists and modified is nonzero. -/
def wLegacy (e : WEnv) : Bool :=
  e.present1h && decide (e.modified ≠ 0) && e.legacySig

/-- Whether the function reaches a VbExDiskWrite for this piece: buffer
present, its modified bit set, and (for the primary pieces) legacy mode
off. -/
def wGate (e : WEnv) : WPiece → Bool
  | WPiece.header1 =>
    e.present1h && decide (e.modified &&& GPT_MODIFIED_HEADER1 ≠ 0) &&
      !(wLegacy e)
  | WPiece.entries1 =>
    e.present1e && decide (e.modified &&& GPT_MODIFIED_ENTRIES1 ≠ 0) &&
      !(wLegacy e)
  | WPiece.header2 =>
    e.present2h && decide (e.modified &&& GPT_MODIFIED_HEADER2 ≠ 0)
  | WPiece.entries2 =>
    e.present2e && decide (e.modified &&& GPT_MODIFIED_ENTRIES2 ≠ 0)

/-- The straight-line sequence of gated writes with goto-fail
short-circuit: returns the C return value and the list of pieces for which
a VbExDiskWrite was issued, in issue order. -/
def runWrites (e : WEnv) : List WPiece → Nat × List WPiece
  | [] => (0, [])
  | p :: rest =>
    if wGate e p then
      if wOk e p then
        let r := runWrites e rest
        (r.1, p :: r.2)
      else (1, [p])
    else runWrites e rest

/-- The fixed order in which the four writes appear in the source. -/
def wOrder : List WPiece :=
  [WPiece.header1, WPiece.entries1, WPiece.header2, WPiece.entries2]

/-- Observable outcome of WriteAndFreeGptData: return value, the writes
issued, and which buffers were freed. -/
structure WResult where
  ret : Nat
  attempted : List WPiece
  freed : List WPiece
deriving DecidableEq, Repr

/-- WriteAndFreeGptData (gpt_misc.c:89-180): issue the gated writes in
order, stop at the first failure, then free every allocated buffer on all
exit paths (free order of the source: primary header, primary entries,
secondary entries, secondary header). -/
def WriteAndFreeGptData (e : WEnv) : WResult :=
  let r := runWrites e wOrder
  { ret := r.1, attempted := r.2,
    freed :=
      (if e.present1h then [WPiece.header1] else []) ++
      (if e.present1e then [WPiece.entries1] else []) ++
      (if e.present2e then [WPiece.entries2] else []) ++
      (if e.present2h then [WPiece.header2] else []) }

/-! ## The two AllocAndReadGptData definitions
(gpt_misc.c:24-82 and vboot_kernel.c:39-76) -/

/-- Environment of an AllocAndReadGptData call: disk geometry, the disk
read oracle (None models a VbExDiskRead failure), and the two collaborator
functions the code applies to freshly read header bytes: extracting
entries_lba from a GptHeader, and CheckHeader of cgptlib (0 = valid),
which is external to the two compared definitions. -/
structure GEnv where
  sectorBytes : Nat
  driveSectors : Nat
  diskRead : Nat → Nat → Option (List Nat)
  entriesLbaOf : List Nat → Nat
  checkHeader : List Nat → Nat → Nat → Nat

/-- The four GPT buffers after a call; none means the buffer was allocated
but never filled from disk. -/
structure GptBuffers where
  primaryHeader : Option (List Nat)
  primaryEntries : Option (List Nat)
  secondaryHeader : Option (List Nat)
  secondaryEntries : Option (List Nat)
deriving DecidableEq, Repr

def emptyGptBuffers : GptBuffers :=
  { primaryHeader := none, primaryEntries := none,
    secondaryHeader := none, secondaryEntries := none }

namespace vboot_kernel

/-- AllocAndReadGptData of vboot_kernel.c:39-76: read primary header,
primary entries, secondary header, secondary entries unconditionally,
failing on the first failed read; success iff all four reads succeed. -/
def AllocAndReadGptData (e : GEnv) : Nat × GptBuffers :=
  let entriesSectors := TOTAL_ENTRIES_SIZE / e.sectorBytes
  match e.diskRead 1 1 with
  | none => (1, emptyGptBuffers)
  | some ph =>
    match e.diskRead (e.entriesLbaOf ph) entriesSectors with
    | none => (1, { emptyGptBuffers with primaryHeader := some ph })
    | some pe =>
      match e.diskRead (e.driveSectors - 1) 1 with
      | none =>
        (1, { emptyGptBuffers with primaryHeader := some ph,
                                   primaryEntries := some pe })
      | some sh =>
        match e.diskRead (e.entriesLbaOf sh) entriesSectors with
        | none =>
          (1, { primaryHeader := some ph, primaryEntries := some pe,
                secondaryHeader := some sh, secondaryEntries := none })
        | some se =>
          (0, { primaryHeader := some ph, primaryEntries := some pe,
                secondaryHeader := some sh, secondaryEntries := some se })

end vboot_kernel

namespace gpt_misc

/-- AllocAndReadGptData of gpt_misc.c:24-82: read each header, read the
corresponding entries only when that header passes CheckHeader, and
succeed iff at least one header copy was valid (and no attempted read
failed). -/
def AllocAndReadGptData (e : GEnv) : Nat × GptBuffers :=
  let entriesSectors := TOTAL_ENTRIES_SIZE / e.sectorBytes
  match e.diskRead 1 1 with
  | none => (1, emptyGptBuffers)
  | some ph =>
    let primaryValid := e.checkHeader ph 0 e.driveSectors = 0
    let primaryEntriesRead :=
      if primaryValid then
        match e.diskRead (e.entriesLbaOf ph) entriesSectors with
        | none => none
        | some pe => some (some pe)
      else some none
    match primaryEntriesRead with
    | none => (1, { emptyGptBuffers with primaryHeader := some ph })
    | some pe? =>
      match e.diskRead (e.driveSectors - 1) 1 with
      | none =>
        (1, { emptyGptBuffers with primaryHeader := some ph,
                                   primaryEntries := pe? })
      | some sh =>
        let secondaryValid := e.checkHeader sh 1 e.driveSectors = 0
        let secondaryEntriesRead :=
          if secondaryValid then
            match e.diskRead (e.entriesLbaOf sh) entriesSectors with
            | none => none
            | some se => some (some se)
          else some none
        match secondaryEntriesRead with
        | none =>
          (1, { primaryHeader := some ph, primaryEntries := pe?,
                secondaryHeader := some sh, secondaryEntries := none })
        | some se? =>
          ((if primaryValid ∨ secondaryValid then 0 else 1),
           { primaryHeader := some ph, primaryEntries := pe?,
             secondaryHeader := some sh, secondaryEntries := se? })

end gpt_misc

/-! ## GPT kernel entry attribute updates -/

/-- The priority/tries/successful attribute fields of a kernel GPT entry. -/
structure KernelEntryAttrs where
  priority : Nat
  tries : Nat
  successful : Nat
deriving DecidableEq, Repr

/-- Modelled from the spec: GptUpdateKernelEntry with GPT_UPDATE_ENTRY_BAD
lives in cgptlib, which is not under src/.  Spec section 4.2:
"update_current(BAD) policy: set priority = 0, tries = 0, successful = 0 on
the current entry." -/
def GptUpdateKernelEntryBad (_a : KernelEntryAttrs) : KernelEntryAttrs :=
  { priority := 0, tries := 0, successful := 0 }

/-- Modelled from the spec: GptUpdateKernelEntry with GPT_UPDATE_ENTRY_TRY
lives in cgptlib, which is not under src/.  Spec section 4.2:
"update_current(TRY) policy: if successful == 0 and tries > 0, decrement
tries." -/
def GptUpdateKernelEntryTry (a : KernelEntryAttrs) : KernelEntryAttrs :=
  if a.successful = 0 ∧ 0 < a.tries then { a with tries := a.tries - 1 }
  else a

/-! ## Characterizations of the per-candidate step -/

/-- Whether a candidate contributes to lowest_version: it reaches the
version-tracking point at vboot_kernel.c:456 with key_block_valid still
set.  This requires passing the size and read checks, full key-block
validity, data-key parsing, preamble verification, and (outside recovery
and developer modes) the combined-version rollback check. -/
def candQualifies (g : LKGlobals) (c : Cand) : Bool :=
  decide (g.kbufSectors ≤ c.partSize) && c.readStartOk && candKbvDef g c &&
  c.dataKeyOk && c.preambleOk &&
  !(decide (g.bootMode ≠ BootMode.recovery) &&
    decide (g.bootMode ≠ BootMode.dev) &&
    decide (candCombined c < g.tpm))

/-- lowest_version accumulation over a candidate sequence, mirroring the
update at vboot_kernel.c:456-457. -/
def scanLowest (g : LKGlobals) : List Cand → Nat → Nat
  | [], acc => acc
  | c :: rest, acc =>
    scanLowest g rest
      (if candQualifies g c = true ∧ acc > candCombined c then candCombined c
       else acc)

/-! ## Concrete data for witnesses and counterexamples -/

/-- A candidate that passes every check in normal mode against a secure
counter of 10: combined version (0 << 16) | 15 = 15. -/
def candOkA : Cand :=
  { gptIndex := 0, partStart := 100, partSize := 200, readStartOk := true,
    kbSigOk := true, kbHashOk := true, kbFlags := 5, kbKeyVersion := 0,
    kbSize := 512, dataKeyOk := true, preambleOk := true,
    preKernelVersion := 15, preSize := 512, bodyDataSize := 512,
    bodyLoadAddress := 4096, bootloaderAddress := 8192,
    bootloaderSize := 100, readBodyOk := true, bodyVerifyOk := true }

/-- A base call environment: normal mode, 512-byte sectors, secure counter
10, one fully valid candidate. -/
def envBase : LKEnv :=
  { bytesPerLba := 512, endingLba := 1000, bootFlags := 0,
    kernelBufferIn := 0, kernelBufferSizeIn := 0, partitionNumberIn := 0,
    bootloaderAddressIn := 0, bootloaderSizeIn := 0,
    nvDevBootSignedOnly := 0, nvRecoveryRequestIn := 0,
    gbbForceDevOn := false, prevBootFailed := false, gbbRecoveryKeyErr := 0,
    sharedKernelVersionTpm := 10, sharedKernelVersionLowestIn := 7,
    sharedFlagsIn := 0, gptReadOk := true, gptInitOk := true,
    cands := [candOkA] }

/-- Signature-verified candidate whose combined version 9 rolls back below
the secure counter 10. -/
def candRollback : Cand := { candOkA with preKernelVersion := 9 }

/-- Second fully valid candidate (GPT index 1, combined version 15). -/
def candGoodB : Cand := { candOkA with gptIndex := 1 }

def c1CexEnv : LKEnv := { envBase with cands := [candRollback, candGoodB] }

/-- Candidate fit for recovery mode: flags RECOVERY_1 | DEVELOPER_0. -/
def candRec : Cand := { candOkA with kbFlags := 9 }

def c2Env : LKEnv :=
  { envBase with bootFlags := 2,
                 cands := [candRec, { candRec with gptIndex := 1 }] }

/-- Candidate whose start-of-partition disk read fails. -/
def candReadFail : Cand := { candOkA with readStartOk := false }

def c3CexEnv : LKEnv := { envBase with cands := [candReadFail, candGoodB] }

/-- Candidate whose combined version equals the secure counter 10. -/
def candEq : Cand := { candOkA with preKernelVersion := 10 }

def c4Env : LKEnv := { envBase with cands := [candEq, candGoodB] }

def c5Env : LKEnv := { envBase with cands := [] }

def c7CexEnv : LKEnv :=
  { envBase with nvRecoveryRequestIn := 5, cands := [] }

/-- Developer-mode candidate whose key block fails signature verification
but carries a valid hash; flags DEVELOPER_1 | RECOVERY_0. -/
def candSelf : Cand := { candOkA with kbSigOk := false, kbFlags := 6 }

def c8Env : LKEnv := { envBase with bootFlags := 1, cands := [candSelf] }

def c6CexEnv : WEnv :=
  { present1h := true, present1e := true, present2h := true,
    present2e := true, legacySig := true, modified := 1, writeOk1h := true,
    writeOk1e := true, writeOk2h := true, writeOk2e := true }

def c6OkEnv : WEnv :=
  { c6CexEnv with legacySig := false, modified := 0xF, writeOk2h := false }

def c9Env : LKEnv := { envBase with bytesPerLba := 0 }

def c10CexEnv : GEnv :=
  { sectorBytes := 512, driveSectors := 1000,
    diskRead := fun _ _ => some [0], entriesLbaOf := fun _ => 2,
    checkHeader := fun _ _ _ => 1 }

def c10OkEnv : GEnv := { c10CexEnv with checkHeader := fun _ _ _ => 0 }

/-- The early-exit condition at vboot_kernel.c:563-578: recovery mode, or
an untrusted (dev-signed) key block, or the good partition's combined
version equals the secure-counter value. -/
def brkCond (g : LKGlobals) (c : Cand) : Bool :=
  decide (g.bootMode = BootMode.recovery) || !candQualifies g c ||
  decide (candCombined c = g.tpm)

/-- The diagnostic record a candidate leaves in shcall->parts. -/
def partRecord (g : LKGlobals) (ge : Bool) (kb kbs : Nat) (c : Cand) :
    ShPart :=
  { gptIndex := c.gptIndex + 1, sectorStart := c.partStart,
    sectorCount := c.partSize,
    checkResult := (candStep g ge kb kbs c).check,
    combinedVersion :=
      if (candStep g ge kb kbs c).combinedRec then candCombined c else 0,
    kbValidFlag := (candStep g ge kb kbs c).kbvFlagRec }

/-- The diagnostic record of a candidate whose start-of-partition read
failed (vboot_kernel.c:323-328). -/
def readStartFailRecord (c : Cand) : ShPart :=
  { gptIndex := c.gptIndex + 1, sectorStart := c.partStart,
    sectorCount := c.partSize, checkResult := LkpCheck.readStart,
    combinedVersion := 0, kbValidFlag := false }

theorem candKbvDef_eq_false_of_sig (g : LKGlobals) (c : Cand)
    (h : c.kbSigOk = false) : candKbvDef g c = false := by
  unfold candKbvDef
  simp [h]

set_option maxHeartbeats 1000000 in
theorem prePhase_through_true_iff (g : LKGlobals) (c : Cand) :
    prePhase g c = PrePhase.through true ↔ candQualifies g c = true := by
  unfold prePhase candQualifies
  cases hm : g.bootMode
  all_goals cases hkbv : candKbvDef g c
  all_goals repeat' split
  all_goals simp_all [candKbvDef_eq_false_of_sig]

theorem prePhase_through_kbv (g : LKGlobals) (c : Cand) (kbv : Bool)
    (h : prePhase g c = PrePhase.through kbv) :
    kbv = candQualifies g c := by
  by_cases hq : candQualifies g c = true
  · have h2 := (prePhase_through_true_iff g c).mpr hq
    rw [h] at h2
    rw [hq]
    exact PrePhase.through.inj h2
  · have hq2 : candQualifies g c = false := by simpa using hq
    cases hkb : kbv
    · rw [hq2]
    · rw [hkb] at h
      exact absurd ((prePhase_through_true_iff g c).mp h) hq

theorem prePhase_badPre_notQual (g : LKGlobals) (c : Cand) (ch : LkpCheck)
    (cr : Bool) (h : prePhase g c = PrePhase.badPre ch cr) :
    candQualifies g c = false := by
  by_cases hq : candQualifies g c = true
  · rw [(prePhase_through_true_iff g c).mpr hq] at h
    cases h
  · simpa using hq

theorem candStep_counts (g : LKGlobals) (ge : Bool) (kb kbs : Nat)
    (c : Cand) : (candStep g ge kb kbs c).counts = candQualifies g c := by
  cases hp : prePhase g c with
  | badPre ch cr =>
    have hq := prePhase_badPre_notQual g c ch cr hp
    simp [candStep, hp, hq]
  | through kbv =>
    have hk := prePhase_through_kbv g c kbv hp
    simp only [candStep, hp]
    repeat' split
    all_goals simp [hk]

/-! ## Step lemmas -/

theorem processCand_partsFound (g : LKGlobals) (st : LoopSt) (c : Cand) :
    (processCand g st c).1.partsFound = st.partsFound + 1 := rfl

theorem processCand_found (g : LKGlobals) (st : LoopSt) (c : Cand) :
    (processCand g st c).1.foundPartitions = st.foundPartitions + 1 := rfl

theorem processCand_parts_len (g : LKGlobals) (st : LoopSt) (c : Cand) :
    (processCand g st c).1.parts.length = st.parts.length + 1 := by
  simp [processCand, applyStep]

theorem processCand_lowest (g : LKGlobals) (st : LoopSt) (c : Cand) :
    (processCand g st c).1.lowestVersion =
      if candQualifies g c = true ∧ st.lowestVersion > candCombined c then
        candCombined c
      else st.lowestVersion := by
  simp only [processCand, applyStep]
  rw [candStep_counts]

theorem candStep_goodExists (g : LKGlobals) (kb kbs : Nat) (c : Cand) :
    (candStep g true kb kbs c).good = false ∧
    (candStep g true kb kbs c).brk = false ∧
    (candStep g true kb kbs c).bodyRead = false := by
  unfold candStep
  cases prePhase g c
  all_goals simp

/-- Every candidate examination either selects the candidate as the good
partition (with the fields the source sets at vboot_kernel.c:534-578) or
leaves the selection state alone and does not break the loop. -/
theorem candStep_cases (g : LKGlobals) (ge : Bool) (kb kbs : Nat)
    (c : Cand) :
    ((candStep g ge kb kbs c).good = true ∧
     (candStep g ge kb kbs c).kbv = candQualifies g c ∧
     (candStep g ge kb kbs c).check = LkpCheck.kernelGood ∧
     (candStep g ge kb kbs c).brk =
       (decide (g.bootMode = BootMode.recovery) ||
        !candQualifies g c || decide (candCombined c = g.tpm)) ∧
     ge = false) ∨
    ((candStep g ge kb kbs c).good = false ∧
     (candStep g ge kb kbs c).brk = false) := by
  cases hp : prePhase g c with
  | badPre ch cr =>
    right
    simp [candStep, hp]
  | through kbv =>
    have hk := prePhase_through_kbv g c kbv hp
    simp only [candStep, hp]
    repeat' split
    all_goals simp_all [hk]

theorem candStep_brk_of_not_good (g : LKGlobals) (ge : Bool) (kb kbs : Nat)
    (c : Cand) (h : (candStep g ge kb kbs c).good = false) :
    (candStep g ge kb kbs c).brk = false := by
  rcases candStep_cases g ge kb kbs c with ⟨h1, _⟩ | ⟨_, h2⟩
  · rw [h] at h1
    cases h1
  · exact h2

theorem candStep_good_fields (g : LKGlobals) (ge : Bool) (kb kbs : Nat)
    (c : Cand) (h : (candStep g ge kb kbs c).good = true) :
    (candStep g ge kb kbs c).kbv = candQualifies g c ∧
    (candStep g ge kb kbs c).check = LkpCheck.kernelGood ∧
    (candStep g ge kb kbs c).brk =
      (decide (g.bootMode = BootMode.recovery) ||
       !candQualifies g c || decide (candCombined c = g.tpm)) ∧
    ge = false := by
  rcases candStep_cases g ge kb kbs c with ⟨_, h2⟩ | ⟨h1, _⟩
  · exact h2
  · rw [h] at h1
    cases h1

/-- Once good_partition is set, a later iteration leaves the selection
state untouched, performs no body read, and never breaks. -/
theorem processCand_after_good (g : LKGlobals) (st : LoopSt) (c : Cand)
    (h : st.goodPartition ≠ -1) :
    (processCand g st c).1.goodPartition = st.goodPartition ∧
    (processCand g st c).1.goodScanPos = st.goodScanPos ∧
    (processCand g st c).1.goodKbv = st.goodKbv ∧
    (processCand g st c).1.goodCombined = st.goodCombined ∧
    (processCand g st c).1.bodyReadPositions = st.bodyReadPositions ∧
    (processCand g st c).2 = false := by
  have hge : decide (st.goodPartition ≠ -1) = true := by simpa using h
  have hcs := candStep_goodExists g st.kernelBuffer st.kernelBufferSize c
  simp only [processCand, hge, applyStep]
  simp [hcs.1, hcs.2.1, hcs.2.2]

theorem processCand_parts (g : LKGlobals) (st : LoopSt) (c : Cand) :
    (processCand g st c).1.parts = st.parts ++
      [partRecord g (decide (st.goodPartition ≠ -1)) st.kernelBuffer
        st.kernelBufferSize c] := rfl

theorem processCand_bodyReads (g : LKGlobals) (st : LoopSt) (c : Cand) :
    (processCand g st c).1.bodyReadPositions = st.bodyReadPositions ++
      (if (candStep g (decide (st.goodPartition ≠ -1)) st.kernelBuffer
            st.kernelBufferSize c).bodyRead then [st.partsFound] else []) :=
  rfl

theorem processCand_gptEvents (g : LKGlobals) (st : LoopSt) (c : Cand) :
    (processCand g st c).1.gptEvents = st.gptEvents ++
      (match (candStep g (decide (st.goodPartition ≠ -1)) st.kernelBuffer
                st.kernelBufferSize c).event with
       | some ev => [(c.gptIndex, ev)]
       | none => []) := rfl

/-- Each iteration either records this candidate as the good partition
(setting the selection outputs as at vboot_kernel.c:534-578, with the loop
breaking exactly when brkCond holds) or leaves the selection outputs
unchanged and does not break. -/
theorem processCand_cases (g : LKGlobals) (st : LoopSt) (c : Cand) :
    ((processCand g st c).1.goodScanPos = some st.partsFound ∧
     (processCand g st c).1.goodKbv = candQualifies g c ∧
     (processCand g st c).1.goodCombined = candCombined c ∧
     0 ≤ (processCand g st c).1.goodPartition ∧
     st.goodPartition = -1 ∧
     (processCand g st c).2 = brkCond g c ∧
     (partRecord g (decide (st.goodPartition ≠ -1)) st.kernelBuffer
        st.kernelBufferSize c).checkResult = LkpCheck.kernelGood) ∨
    ((processCand g st c).1.goodPartition = st.goodPartition ∧
     (processCand g st c).1.goodScanPos = st.goodScanPos ∧
     (processCand g st c).1.goodKbv = st.goodKbv ∧
     (processCand g st c).1.goodCombined = st.goodCombined ∧
     (processCand g st c).2 = false) := by
  rcases hcs : candStep g (decide (st.goodPartition ≠ -1)) st.kernelBuffer
      st.kernelBufferSize c with ⟨chk, crec, ev, bry, gd, kbv, cnt, brk, kbo,
      kbso, kfr⟩
  rcases candStep_cases g (decide (st.goodPartition ≠ -1)) st.kernelBuffer
      st.kernelBufferSize c with ⟨hg, hkbv, hchk, hbrk, hge⟩ | ⟨hg, hbrk⟩
  · left
    rw [hcs] at hg hkbv hchk hbrk
    simp only at hg hkbv hchk hbrk
    have hst : st.goodPartition = -1 := by
      by_contra hne
      simp [hne] at hge
    refine ⟨?_, ?_, ?_, ?_, hst, ?_, ?_⟩
    all_goals
      simp only [processCand, applyStep, hcs, partRecord, brkCond, hg, hkbv,
        hchk, hbrk]
    all_goals simp
    omega
  · right
    rw [hcs] at hg hbrk
    simp only at hg hbrk
    refine ⟨?_, ?_, ?_, ?_, ?_⟩
    all_goals simp only [processCand, applyStep, hcs, hg, hbrk]
    all_goals simp

/-! ## Loop lemmas -/

theorem runLoop_partsFound_le (g : LKGlobals) (cs : List Cand)
    (st : LoopSt) : st.partsFound ≤ (runLoop g st cs).partsFound := by
  induction cs generalizing st with
  | nil => simp [runLoop]
  | cons c rest ih =>
    simp only [runLoop]
    split
    · rw [processCand_partsFound]
      omega
    · have h1 := ih (processCand g st c).1
      rw [processCand_partsFound] at h1
      omega

theorem runLoop_partsFound_pos (g : LKGlobals) (c : Cand) (rest : List Cand)
    (st : LoopSt) :
    st.partsFound + 1 ≤ (runLoop g st (c :: rest)).partsFound := by
  simp only [runLoop]
  split
  · rw [processCand_partsFound]
  · have h1 := runLoop_partsFound_le g rest (processCand g st c).1
    rw [processCand_partsFound] at h1
    omega

/-- After the good partition is recorded, the rest of the scan only
collects version information: selection outputs, body reads and the good
diagnostic record are untouched, and every remaining candidate is
examined. -/
theorem runLoop_after_good (g : LKGlobals) (cs : List Cand) (st : LoopSt)
    (h : st.goodPartition ≠ -1) :
    (runLoop g st cs).goodPartition = st.goodPartition ∧
    (runLoop g st cs).goodScanPos = st.goodScanPos ∧
    (runLoop g st cs).goodKbv = st.goodKbv ∧
    (runLoop g st cs).goodCombined = st.goodCombined ∧
    (runLoop g st cs).partsFound = st.partsFound + cs.length ∧
    (runLoop g st cs).bodyReadPositions = st.bodyReadPositions ∧
    ∃ l, (runLoop g st cs).parts = st.parts ++ l := by
  induction cs generalizing st with
  | nil => exact ⟨rfl, rfl, rfl, rfl, by simp [runLoop], rfl, [], by
      simp [runLoop]⟩
  | cons c rest ih =>
    have hpc := processCand_after_good g st c h
    rw [runLoop]
    rw [hpc.2.2.2.2.2]
    simp only [Bool.false_eq_true, if_false]
    have h2 : (processCand g st c).1.goodPartition ≠ -1 := by
      rw [hpc.1]
      exact h
    have hr := ih (processCand g st c).1 h2
    refine ⟨?_, ?_, ?_, ?_, ?_, ?_, ?_⟩
    · rw [hr.1, hpc.1]
    · rw [hr.2.1, hpc.2.1]
    · rw [hr.2.2.1, hpc.2.2.1]
    · rw [hr.2.2.2.1, hpc.2.2.2.1]
    · rw [hr.2.2.2.2.1, processCand_partsFound]
      simp
      omega
    · rw [hr.2.2.2.2.2.1, hpc.2.2.2.2.1]
    · obtain ⟨l, hl⟩ := hr.2.2.2.2.2.2
      rw [hl, processCand_parts]
      refine ⟨partRecord g (decide (st.goodPartition ≠ -1)) st.kernelBuffer
        st.kernelBufferSize c :: l, ?_⟩
      simp

/-- lowest_version after the scan equals the scanLowest fold over exactly
the candidates that were examined (the first partsFound of them). -/
theorem runLoop_lowest (g : LKGlobals) (cs : List Cand) (st : LoopSt) :
    (runLoop g st cs).lowestVersion =
      scanLowest g
        (cs.take ((runLoop g st cs).partsFound - st.partsFound))
        st.lowestVersion := by
  induction cs generalizing st with
  | nil => simp [runLoop, scanLowest]
  | cons c rest ih =>
    rw [runLoop]
    split
    · rw [processCand_partsFound]
      have h1 : st.partsFound + 1 - st.partsFound = 1 := by omega
      rw [h1]
      simp only [List.take_succ_cons, List.take_zero, scanLowest]
      rw [processCand_lowest]
    · have hle := runLoop_partsFound_le g rest (processCand g st c).1
      rw [processCand_partsFound] at hle
      have h2 : (runLoop g (processCand g st c).1 rest).partsFound -
          st.partsFound =
          ((runLoop g (processCand g st c).1 rest).partsFound -
           (st.partsFound + 1)) + 1 := by omega
      rw [h2]
      simp only [List.take_succ_cons, scanLowest]
      rw [← processCand_lowest]
      have := ih (processCand g st c).1
      rw [processCand_partsFound] at this
      exact this

/-- Every diagnostic record appended by the scan is the record of one of
the candidates. -/
theorem runLoop_parts_suffix (g : LKGlobals) (cs : List Cand) (st : LoopSt) :
    ∃ l, (runLoop g st cs).parts = st.parts ++ l ∧
      ∀ p ∈ l, ∃ c ge kb kbs, c ∈ cs ∧ p = partRecord g ge kb kbs c := by
  induction cs generalizing st with
  | nil => exact ⟨[], by simp [runLoop], by simp⟩
  | cons c rest ih =>
    rw [runLoop]
    split
    · refine ⟨[partRecord g (decide (st.goodPartition ≠ -1)) st.kernelBuffer
        st.kernelBufferSize c], processCand_parts g st c, ?_⟩
      intro p hp
      simp at hp
      exact ⟨c, _, _, _, by simp, hp⟩
    · obtain ⟨l, hl, hall⟩ := ih (processCand g st c).1
      rw [hl, processCand_parts]
      refine ⟨partRecord g (decide (st.goodPartition ≠ -1)) st.kernelBuffer
        st.kernelBufferSize c :: l, by simp, ?_⟩
      intro p hp
      rcases List.mem_cons.mp hp with h1 | h2
      · exact ⟨c, _, _, _, by simp, h1⟩
      · obtain ⟨c2, ge2, kb2, kbs2, hmem, hrec⟩ := hall p h2
        exact ⟨c2, ge2, kb2, kbs2, by simp [hmem], hrec⟩

/-- Master characterization of the scan with respect to the good
partition: either none is recorded and every candidate is examined, or one
is recorded at scan position k, and the scan stops right there exactly
when the early-exit condition holds for it, otherwise runs to the end of
the table reading no further kernel bodies. -/
theorem runLoop_good_master (g : LKGlobals) (cs : List Cand) (st : LoopSt)
    (hgood : st.goodPartition = -1) (hpos : st.goodScanPos = none)
    (hwf : st.parts.length = st.partsFound) :
    ((runLoop g st cs).goodScanPos = none ∧
     (runLoop g st cs).goodPartition = -1 ∧
     (runLoop g st cs).partsFound = st.partsFound + cs.length) ∨
    (∃ k c, (runLoop g st cs).goodScanPos = some k ∧
      st.partsFound ≤ k ∧
      cs.get? (k - st.partsFound) = some c ∧
      0 ≤ (runLoop g st cs).goodPartition ∧
      (runLoop g st cs).goodKbv = candQualifies g c ∧
      (runLoop g st cs).goodCombined = candCombined c ∧
      (∃ p, (runLoop g st cs).parts.get? k = some p ∧
            p.checkResult = LkpCheck.kernelGood) ∧
      (brkCond g c = true → (runLoop g st cs).partsFound = k + 1) ∧
      (brkCond g c = false →
        (runLoop g st cs).partsFound = st.partsFound + cs.length) ∧
      (∀ x ∈ (runLoop g st cs).bodyReadPositions,
        x ∈ st.bodyReadPositions ∨ x ≤ k)) := by
  induction cs generalizing st with
  | nil =>
    left
    simp [runLoop, hpos, hgood]
  | cons c rest ih =>
    rcases processCand_cases g st c with
      ⟨hsp, hkbv, hcmb, hgp, _, hbrk, hrec⟩ | ⟨hgp, hsp, hkbv, hcmb, hbrk⟩
    · -- this candidate became the good partition
      right
      have hget : (c :: rest).get? (st.partsFound - st.partsFound) = some c := by
        simp
      have hparts : (processCand g st c).1.parts.get? st.partsFound =
          some (partRecord g (decide (st.goodPartition ≠ -1)) st.kernelBuffer
            st.kernelBufferSize c) := by
        rw [processCand_parts, ← hwf]
        rw [List.get?_append_right (le_refl _)]
        simp
      have hbody : ∀ x ∈ (processCand g st c).1.bodyReadPositions,
          x ∈ st.bodyReadPositions ∨ x ≤ st.partsFound := by
        intro x hx
        rw [processCand_bodyReads] at hx
        rcases List.mem_append.mp hx with h1 | h2
        · exact Or.inl h1
        · right
          split at h2
          · simp at h2
            omega
          · simp at h2
      rw [runLoop]
      by_cases hbc : brkCond g c = true
      · rw [hbrk, hbc]
        simp only [if_true]
        refine ⟨st.partsFound, c, hsp, le_refl _, hget, hgp, hkbv, hcmb,
          ⟨_, hparts, hrec⟩, fun _ => ?_, fun hf => ?_, hbody⟩
        · rw [processCand_partsFound]
        · rw [hbc] at hf
          cases hf
      · have hbc2 : brkCond g c = false := by
          revert hbc
          cases brkCond g c <;> simp
        rw [hbrk, hbc2]
        simp only [Bool.false_eq_true, if_false]
        have hgne : (processCand g st c).1.goodPartition ≠ -1 := by
          omega
        have hr := runLoop_after_good g rest (processCand g st c).1 hgne
        obtain ⟨l, hl⟩ := hr.2.2.2.2.2.2
        refine ⟨st.partsFound, c, ?_, le_refl _, hget, ?_, ?_, ?_, ?_,
          fun ht => ?_, fun _ => ?_, ?_⟩
        · rw [hr.2.1, hsp]
        · rw [hr.1]
          exact hgp
        · rw [hr.2.2.1, hkbv]
        · rw [hr.2.2.2.1, hcmb]
        · refine ⟨_, ?_, hrec⟩
          rw [hl]
          rw [List.get?_append]
          · exact hparts
          · rw [processCand_parts]
            simp
            omega
        · rw [hbc2] at ht
          cases ht
        · rw [hr.2.2.2.2.1, processCand_partsFound]
          simp
          omega
        · rw [hr.2.2.2.2.2.1]
          exact hbody
    · -- selection unchanged by this candidate; recurse
      rw [runLoop, hbrk]
      simp only [Bool.false_eq_true, if_false]
      have hg2 : (processCand g st c).1.goodPartition = -1 := by
        rw [hgp, hgood]
      have hp2 : (processCand g st c).1.goodScanPos = none := by
        rw [hsp, hpos]
      have hw2 : (processCand g st c).1.parts.length =
          (processCand g st c).1.partsFound := by
        rw [processCand_parts_len, processCand_partsFound, hwf]
      rcases ih (processCand g st c).1 hg2 hp2 hw2 with
        ⟨h1, h2, h3⟩ | ⟨k, c2, h1, h2, h3, h4, h5, h6, h7, h8, h9, h10⟩
      · left
        rw [processCand_partsFound] at h3
        refine ⟨h1, h2, ?_⟩
        rw [h3]
        simp
        omega
      · right
        rw [processCand_partsFound] at h2
        refine ⟨k, c2, h1, by omega, ?_, h4, h5, h6, h7, ?_, ?_, ?_⟩
        · rw [processCand_partsFound] at h3
          have hk : k - st.partsFound = (k - (st.partsFound + 1)) + 1 := by
            omega
          rw [hk]
          simpa using h3
        · intro ht
          rw [h8 ht]
        · intro hf
          rw [h9 hf, processCand_partsFound]
          simp
          omega
        · intro x hx
          rcases h10 x hx with hmem | hle
          · rw [processCand_bodyReads] at hmem
            rcases List.mem_append.mp hmem with ha | hb
            · exact Or.inl ha
            · right
              split at hb
              · simp at hb
                omega
              · simp at hb
          · exact Or.inr hle

/-! ## scanLowest properties -/

theorem scanLowest_le_acc (g : LKGlobals) (cs : List Cand) (acc : Nat) :
    scanLowest g cs acc ≤ acc := by
  induction cs generalizing acc with
  | nil => simp [scanLowest]
  | cons c rest ih =>
    rw [scanLowest]
    split
    · rename_i hcond
      exact le_trans (ih _) (le_of_lt hcond.2)
    · exact ih _

theorem scanLowest_le_mem (g : LKGlobals) (cs : List Cand) (acc : Nat)
    (c : Cand) (hmem : c ∈ cs) (hq : candQualifies g c = true) :
    scanLowest g cs acc ≤ candCombined c := by
  induction cs generalizing acc with
  | nil => cases hmem
  | cons d rest ih =>
    rw [scanLowest]
    rcases List.mem_cons.mp hmem with heq | htl
    · subst heq
      split
      · exact scanLowest_le_acc g rest _
      · rename_i hcond
        have : acc ≤ candCombined c := by
          rcases Nat.lt_or_ge (candCombined c) acc with hlt | hge
          · exact absurd ⟨hq, hlt⟩ hcond
          · exact hge
        exact le_trans (scanLowest_le_acc g rest _) this
    · exact ih _ htl

theorem scanLowest_mem_or_acc (g : LKGlobals) (cs : List Cand) (acc : Nat) :
    scanLowest g cs acc = acc ∨
    ∃ c ∈ cs, candQualifies g c = true ∧
      scanLowest g cs acc = candCombined c := by
  induction cs generalizing acc with
  | nil => exact Or.inl rfl
  | cons c rest ih =>
    rw [scanLowest]
    split
    · rename_i hcond
      rcases ih (candCombined c) with h1 | ⟨c2, hm, hq, hv⟩
      · exact Or.inr ⟨c, by simp, hcond.1, h1⟩
      · exact Or.inr ⟨c2, by simp [hm], hq, hv⟩
    · rcases ih acc with h1 | ⟨c2, hm, hq, hv⟩
      · exact Or.inl h1
      · exact Or.inr ⟨c2, by simp [hm], hq, hv⟩

/-! ## Recovery mode skips the rollback checks -/

theorem keyRollbackFail_recovery (g : LKGlobals) (c : Cand)
    (h : g.bootMode = BootMode.recovery) : keyRollbackFail g c = false := by
  unfold keyRollbackFail
  simp [h]

theorem candKbCheck_recovery_ne (g : LKGlobals) (c : Cand)
    (h : g.bootMode = BootMode.recovery) :
    candKbCheck g c ≠ LkpCheck.keyRollback ∧
    candKbCheck g c ≠ LkpCheck.kernelRollback := by
  unfold candKbCheck
  rw [keyRollbackFail_recovery g c h]
  constructor
  all_goals repeat' split
  all_goals simp_all

/-- In recovery mode no candidate is ever failed for key-version or
combined-version rollback: those check_result codes cannot appear. -/
theorem candStep_check_recovery (g : LKGlobals) (ge : Bool) (kb kbs : Nat)
    (c : Cand) (h : g.bootMode = BootMode.recovery) :
    (candStep g ge kb kbs c).check ≠ LkpCheck.keyRollback ∧
    (candStep g ge kb kbs c).check ≠ LkpCheck.kernelRollback := by
  have hkc := candKbCheck_recovery_ne g c h
  cases hp : prePhase g c with
  | badPre ch cr =>
    have hch : ch ≠ LkpCheck.keyRollback ∧ ch ≠ LkpCheck.kernelRollback := by
      unfold prePhase at hp
      repeat' split at hp
      all_goals cases hp
      all_goals simp_all
    simp [candStep, hp, hch.1, hch.2]
  | through kbv =>
    simp only [candStep, hp]
    repeat' split
    all_goals simp

/-- With valid parameters and a readable recovery key, LoadKernel takes
its main path. -/
theorem LoadKernel_main (e : LKEnv) (hb : e.bytesPerLba ≠ 0)
    (he : e.endingLba ≠ 0) (hk : (lkGlobals e).kbufSectors ≠ 0)
    (hgbb : (lkGlobals e).bootMode = BootMode.recovery →
      e.gbbRecoveryKeyErr = 0) :
    LoadKernel e = lkMain e := by
  unfold LoadKernel
  rw [if_neg (by simp [hb, he])]
  rw [if_neg hk]
  rw [if_neg (by intro ⟨h1, h2⟩; exact h2 (hgbb h1))]

theorem runLoop_gptEvents_mono (g : LKGlobals) (cs : List Cand)
    (st : LoopSt) :
    ∃ l, (runLoop g st cs).gptEvents = st.gptEvents ++ l := by
  induction cs generalizing st with
  | nil => exact ⟨[], by simp [runLoop]⟩
  | cons c rest ih =>
    rw [runLoop]
    split
    · rw [processCand_gptEvents]
      exact ⟨_, rfl⟩
    · obtain ⟨l, hl⟩ := ih (processCand g st c).1
      rw [hl, processCand_gptEvents]
      exact ⟨_, (List.append_assoc _ _ _)⟩

theorem runLoop_parts_mono (g : LKGlobals) (cs : List Cand) (st : LoopSt) :
    ∃ l, (runLoop g st cs).parts = st.parts ++ l := by
  obtain ⟨l, hl, _⟩ := runLoop_parts_suffix g cs st
  exact ⟨l, hl⟩

theorem candStep_readStart (g : LKGlobals) (ge : Bool) (kb kbs : Nat)
    (c : Cand) (hsz : ¬c.partSize < g.kbufSectors)
    (hrd : c.readStartOk = false) :
    candStep g ge kb kbs c =
      { check := LkpCheck.readStart, combinedRec := false,
        event := some GptUpdateType.updateBad, bodyRead := false,
        good := false, kbv := false, counts := false, brk := false,
        kbOut := kb, kbsOut := kbs, kbvFlagRec := false } := by
  have hp : prePhase g c = PrePhase.badPre LkpCheck.readStart false := by
    unfold prePhase
    rw [if_neg hsz, if_pos hrd]
  simp [candStep, hp]

/-- Each candidate examination ends in one of three ways: a bad_kernel
exit (BAD update issued, no selection, no break), a version-only skip
(record preambleValid, no GPT update), or selection as the good partition
(TRY update). -/
theorem candStep_event_cases (g : LKGlobals) (ge : Bool) (kb kbs : Nat)
    (c : Cand) :
    ((candStep g ge kb kbs c).event = some GptUpdateType.updateBad ∧
     (candStep g ge kb kbs c).good = false ∧
     (candStep g ge kb kbs c).brk = false) ∨
    ((candStep g ge kb kbs c).check = LkpCheck.preambleValid ∧
     (candStep g ge kb kbs c).event = none) ∨
    ((candStep g ge kb kbs c).check = LkpCheck.kernelGood ∧
     (candStep g ge kb kbs c).event = some GptUpdateType.updateTry ∧
     (candStep g ge kb kbs c).good = true) := by
  cases hp : prePhase g c with
  | badPre ch cr =>
    left
    simp [candStep, hp]
  | through kbv =>
    simp only [candStep, hp]
    repeat' split
    all_goals simp

/-- A read failure merely continues the scan, but the BAD update is issued
all the same: whenever a candidate ends with the readStart or readData
check code, GptUpdateKernelEntry(GPT_UPDATE_ENTRY_BAD) was called on it. -/
theorem candStep_read_bad (g : LKGlobals) (ge : Bool) (kb kbs : Nat)
    (c : Cand)
    (h : (candStep g ge kb kbs c).check = LkpCheck.readStart ∨
         (candStep g ge kb kbs c).check = LkpCheck.readData) :
    (candStep g ge kb kbs c).event = some GptUpdateType.updateBad ∧
    (candStep g ge kb kbs c).good = false ∧
    (candStep g ge kb kbs c).brk = false := by
  rcases candStep_event_cases g ge kb kbs c with hc | ⟨hc, _⟩ | ⟨hc, _⟩
  · exact hc
  · rw [hc] at h
    rcases h with h | h
    all_goals cases h
  · rw [hc] at h
    rcases h with h | h
    all_goals cases h

/-- Loop-level statement for a candidate whose start-of-partition read
fails: its record is left in the diagnostic ring with check_result
readStart, the BAD update is issued for its GPT entry, and the scan
continues with the next candidate. -/
theorem runLoop_read_fail (g : LKGlobals) (cs : List Cand) (st : LoopSt)
    (i : Nat) (c : Cand) (hwf : st.parts.length = st.partsFound)
    (hget : cs.get? i = some c)
    (hexam : st.partsFound + i < (runLoop g st cs).partsFound)
    (hsz : ¬c.partSize < g.kbufSectors) (hrd : c.readStartOk = false) :
    (runLoop g st cs).parts.get? (st.partsFound + i) =
      some (readStartFailRecord c) ∧
    (c.gptIndex, GptUpdateType.updateBad) ∈ (runLoop g st cs).gptEvents ∧
    (i + 1 < cs.length →
      st.partsFound + i + 1 < (runLoop g st cs).partsFound) := by
  induction cs generalizing st i with
  | nil => cases hget
  | cons d rest ih =>
    have hcs := candStep_readStart g (decide (st.goodPartition ≠ -1))
      st.kernelBuffer st.kernelBufferSize
    cases i with
    | zero =>
      have hdc : d = c := by simpa using hget
      subst hdc
      have hbrk : (processCand g st d).2 = false := by
        simp only [processCand, applyStep]
        rw [hcs d hsz hrd]
      rw [runLoop, hbrk]
      simp only [Bool.false_eq_true, if_false]
      have hparts1 : (processCand g st d).1.parts =
          st.parts ++ [readStartFailRecord d] := by
        rw [processCand_parts]
        simp only [partRecord]
        rw [hcs d hsz hrd]
        rfl
      have hev1 : (processCand g st d).1.gptEvents =
          st.gptEvents ++ [(d.gptIndex, GptUpdateType.updateBad)] := by
        rw [processCand_gptEvents]
        rw [hcs d hsz hrd]
      obtain ⟨l, hl⟩ := runLoop_parts_mono g rest (processCand g st d).1
      obtain ⟨l2, hl2⟩ := runLoop_gptEvents_mono g rest (processCand g st d).1
      refine ⟨?_, ?_, ?_⟩
      · rw [hl, hparts1]
        rw [List.append_assoc]
        rw [List.get?_append_right (by omega)]
        rw [hwf]
        simp
      · rw [hl2, hev1]
        simp
      · intro hlen
        have : rest ≠ [] := by
          intro hr
          rw [hr] at hlen
          simp at hlen
        obtain ⟨d2, rest2, hr2⟩ := List.exists_cons_of_ne_nil this
        rw [hr2]
        have := runLoop_partsFound_pos g d2 rest2 (processCand g st d).1
        rw [processCand_partsFound] at this
        omega
    | succ j =>
      rw [runLoop] at hexam ⊢
      by_cases hnb : (processCand g st d).2 = true
      · exfalso
        rw [if_pos hnb] at hexam
        rw [processCand_partsFound] at hexam
        omega
      · rw [if_neg hnb] at hexam ⊢
        have hw2 : (processCand g st d).1.parts.length =
            (processCand g st d).1.partsFound := by
          rw [processCand_parts_len, processCand_partsFound, hwf]
        have hget2 : rest.get? j = some c := by simpa using hget
        have hex2 : (processCand g st d).1.partsFound + j <
            (runLoop g (processCand g st d).1 rest).partsFound := by
          rw [processCand_partsFound]
          omega
        have hres := ih (processCand g st d).1 j hw2 hget2 hex2
        refine ⟨?_, hres.2.1, ?_⟩
        · have hidx : st.partsFound + (j + 1) =
              (processCand g st d).1.partsFound + j := by
            rw [processCand_partsFound]
            omega
          rw [hidx]
          exact hres.1
        · intro hlen
          have h2 := hres.2.2 (by simpa using hlen)
          rw [processCand_partsFound] at h2
          omega

/-! ## WriteAndFreeGptData properties -/

theorem runWrites_attempted_gated (e : WEnv) (l : List WPiece) :
    ∀ p ∈ (runWrites e l).2, wGate e p = true := by
  induction l with
  | nil => simp [runWrites]
  | cons q rest ih =>
    rw [runWrites]
    split
    · rename_i hg
      split
      · intro p hp
        rcases List.mem_cons.mp hp with h1 | h2
        · rw [h1]
          exact hg
        · exact ih p h2
      · intro p hp
        simp at hp
        rw [hp]
        exact hg
    · exact ih

theorem runWrites_sublist (e : WEnv) (l : List WPiece) :
    (runWrites e l).2.Sublist l := by
  induction l with
  | nil => simp [runWrites]
  | cons q rest ih =>
    rw [runWrites]
    split
    · split
      · exact List.Sublist.cons₂ q ih
      · simp
    · exact List.Sublist.cons q ih

theorem runWrites_ret_zero_iff (e : WEnv) (l : List WPiece) :
    (runWrites e l).1 = 0 ↔
      ∀ p ∈ l, wGate e p = true → wOk e p = true := by
  induction l with
  | nil => simp [runWrites]
  | cons q rest ih =>
    rw [runWrites]
    split
    · rename_i hg
      split
      · rename_i hok
        simp only [List.mem_cons]
        constructor
        · intro h0 p hp hgp
          rcases hp with h1 | h2
          · rw [h1]
            exact hok
          · exact (ih.mp h0) p h2 hgp
        · intro hall
          exact ih.mpr (fun p hp hgp => hall p (Or.inr hp) hgp)
      · rename_i hok
        simp only [List.mem_cons]
        constructor
        · intro h0
          cases h0
        · intro hall
          exact absurd (hall q (Or.inl rfl) hg) (by simp [hok])
    · rename_i hg
      rw [ih]
      constructor
      · intro hall p hp hgp
        rcases List.mem_cons.mp hp with h1 | h2
        · rw [h1] at hgp
          exact absurd hgp hg
        · exact hall p h2 hgp
      · intro hall p hp hgp
        exact hall p (List.mem_cons_of_mem q hp) hgp

theorem runWrites_ret_zero_attempted (e : WEnv) (l : List WPiece)
    (h0 : (runWrites e l).1 = 0) :
    ∀ p ∈ l, wGate e p = true → p ∈ (runWrites e l).2 := by
  induction l with
  | nil => simp
  | cons q rest ih =>
    rw [runWrites] at h0 ⊢
    by_cases hg : wGate e q = true
    · rw [if_pos hg] at h0 ⊢
      by_cases hok : wOk e q = true
      · rw [if_pos hok] at h0 ⊢
        intro p hp hgp
        rcases List.mem_cons.mp hp with h1 | h2
        · rw [h1]
          show q ∈ q :: (runWrites e rest).2
          simp
        · show p ∈ q :: (runWrites e rest).2
          have hh : (runWrites e rest).1 = 0 := h0
          exact List.mem_cons_of_mem q (ih hh p h2 hgp)
      · rw [if_neg hok] at h0
        cases h0
    · rw [if_neg hg] at h0 ⊢
      intro p hp hgp
      rcases List.mem_cons.mp hp with h1 | h2
      · rw [h1] at hgp
        exact absurd hgp hg
      · exact ih h0 p h2 hgp

theorem runWrites_ret_one (e : WEnv) (l : List WPiece)
    (h1 : (runWrites e l).1 = 1) :
    ∃ p, (runWrites e l).2.getLast? = some p ∧ wOk e p = false ∧
      ∀ q ∈ (runWrites e l).2, q ≠ p → wOk e q = true := by
  induction l with
  | nil => cases h1
  | cons q rest ih =>
    rw [runWrites] at h1 ⊢
    by_cases hg : wGate e q = true
    · rw [if_pos hg] at h1 ⊢
      by_cases hok : wOk e q = true
      · rw [if_pos hok] at h1 ⊢
        have hh : (runWrites e rest).1 = 1 := h1
        obtain ⟨p, hlast, hfail, hrest⟩ := ih hh
        refine ⟨p, ?_, hfail, ?_⟩
        · show (q :: (runWrites e rest).2).getLast? = some p
          have hm := @List.mem_getLast?_cons _ p q (runWrites e rest).2
            (Option.mem_def.mpr hlast)
          exact Option.mem_def.mp hm
        · intro r hr hrp
          have hr2 : r ∈ q :: (runWrites e rest).2 := hr
          rcases List.mem_cons.mp hr2 with hq | hmem
          · rw [hq]
            exact hok
          · exact hrest r hmem hrp
      · rw [if_neg hok] at h1 ⊢
        refine ⟨q, rfl, by simpa using hok, ?_⟩
        intro r hr hrp
        have hr2 : r ∈ [q] := hr
        simp at hr2
        exact absurd hr2 hrp
    · rw [if_neg hg] at h1 ⊢
      exact ih h1

theorem runWrites_ret_cases (e : WEnv) (l : List WPiece) :
    (runWrites e l).1 = 0 ∨ (runWrites e l).1 = 1 := by
  induction l with
  | nil => simp [runWrites]
  | cons q rest ih =>
    rw [runWrites]
    split
    · split
      · exact ih
      · simp
    · exact ih

theorem WriteAndFreeGptData_freed (e : WEnv) :
    ∀ b, (wPresent e b = true ↔ b ∈ (WriteAndFreeGptData e).freed) := by
  intro b
  cases b
  all_goals simp only [WriteAndFreeGptData, wPresent]
  all_goals repeat' split
  all_goals simp_all

/-! ## Equivalence domain of the two AllocAndReadGptData definitions -/

/-- When both GPT header copies pass CheckHeader, the two definitions make
the same reads in the same order and agree exactly. -/
theorem AllocAndReadGptData_equiv_of_valid (e : GEnv)
    (h1 : ∀ b, e.diskRead 1 1 = some b →
      e.checkHeader b 0 e.driveSectors = 0)
    (h2 : ∀ b, e.diskRead (e.driveSectors - 1) 1 = some b →
      e.checkHeader b 1 e.driveSectors = 0) :
    gpt_misc.AllocAndReadGptData e = vboot_kernel.AllocAndReadGptData e := by
  unfold gpt_misc.AllocAndReadGptData vboot_kernel.AllocAndReadGptData
  cases hph : e.diskRead 1 1 with
  | none => rfl
  | some ph =>
    have hv1 := h1 ph hph
    simp only [hv1, if_pos, if_true]
    cases hpe : e.diskRead (e.entriesLbaOf ph)
        (TOTAL_ENTRIES_SIZE / e.sectorBytes) with
    | none => simp
    | some pe =>
      simp only
      cases hsh : e.diskRead (e.driveSectors - 1) 1 with
      | none => simp
      | some sh =>
        have hv2 := h2 sh hsh
        simp only [hv2, if_pos, if_true]
        cases hse : e.diskRead (e.entriesLbaOf sh)
            (TOTAL_ENTRIES_SIZE / e.sectorBytes) with
        | none => simp
        | some se => simp

/-! ## Claim theorems -/

theorem wGate_imp (e : WEnv) (p : WPiece) (h : wGate e p = true) :
    e.modified &&& wModBit p ≠ 0 ∧ wPresent e p = true := by
  cases p
  all_goals simp only [wGate, wModBit, wPresent] at h ⊢
  all_goals simp_all

/-- C6 counterexample: with the primary header carrying the legacy
signature and GPT_MODIFIED_HEADER1 set, WriteAndFreeGptData issues no
write at all for the flagged primary header and still returns 0, so the
claim that every flagged piece is attempted is false as stated. -/
theorem c6_counterexample :
    c6CexEnv.modified &&& GPT_MODIFIED_HEADER1 ≠ 0 ∧
    WPiece.header1 ∉ (WriteAndFreeGptData c6CexEnv).attempted ∧
    (WriteAndFreeGptData c6CexEnv).ret = 0 := by decide

/-- C6 (amended): WriteAndFreeGptData writes only pieces whose modified
bit is set and whose buffer exists; the attempted writes are a
subsequence of the fixed order primary header, primary entries, secondary
header, secondary entries; it returns 0 exactly when every gated write
(flagged, buffer present, and not suppressed by legacy mode for the
primary pieces) succeeds, in which case all gated pieces were attempted;
on failure it returns 1, the last attempted write is the failing one and
everything attempted before it succeeded; and the freed buffers are
exactly the allocated ones, on every exit path. -/
theorem c6_write_and_free (e : WEnv) (res : WResult)
    (h : WriteAndFreeGptData e = res) :
    (∀ p ∈ res.attempted, e.modified &&& wModBit p ≠ 0 ∧
       wPresent e p = true) ∧
    res.attempted.Sublist wOrder ∧
    (res.ret = 0 ↔ ∀ p ∈ wOrder, wGate e p = true → wOk e p = true) ∧
    (res.ret = 0 → ∀ p ∈ wOrder, wGate e p = true → p ∈ res.attempted) ∧
    (res.ret = 0 ∨ res.ret = 1) ∧
    (res.ret = 1 → ∃ p, res.attempted.getLast? = some p ∧
       wOk e p = false ∧ ∀ q ∈ res.attempted, q ≠ p → wOk e q = true) ∧
    (∀ b, wPresent e b = true ↔ b ∈ res.freed) := by
  have hat : res.attempted = (runWrites e wOrder).2 := by
    rw [← h]
    rfl
  have hrt : res.ret = (runWrites e wOrder).1 := by
    rw [← h]
    rfl
  refine ⟨?_, ?_, ?_, ?_, ?_, ?_, ?_⟩
  · intro p hp
    rw [hat] at hp
    exact wGate_imp e p (runWrites_attempted_gated e wOrder p hp)
  · rw [hat]
    exact runWrites_sublist e wOrder
  · rw [hrt]
    exact runWrites_ret_zero_iff e wOrder
  · rw [hrt, hat]
    exact runWrites_ret_zero_attempted e wOrder
  · rw [hrt]
    exact runWrites_ret_cases e wOrder
  · rw [hrt, hat]
    exact runWrites_ret_one e wOrder
  · rw [← h]
    exact WriteAndFreeGptData_freed e

theorem c6_witness :
    (WriteAndFreeGptData c6OkEnv).ret = 1 ∧
    (WriteAndFreeGptData c6OkEnv).attempted.getLast? =
      some WPiece.header2 := by
  have hw := c6_write_and_free c6OkEnv (WriteAndFreeGptData c6OkEnv) rfl
  obtain ⟨p, hlast, hfail, _⟩ := hw.2.2.2.2.2.1 (by decide)
  refine ⟨by decide, ?_⟩
  have hp : p = WPiece.header2 := by
    revert hfail
    cases p
    all_goals decide
  rw [← hp]
  exact hlast

/-- C10 counterexample: on a disk where every read succeeds but both
header copies fail CheckHeader, the gpt_misc definition returns 1 while
the vboot_kernel definition returns 0, so the two definitions are not
observationally equivalent. -/
theorem c10_counterexample :
    (gpt_misc.AllocAndReadGptData c10CexEnv).1 = 1 ∧
    (vboot_kernel.AllocAndReadGptData c10CexEnv).1 = 0 := ⟨rfl, rfl⟩

/-- C10 (amended): the two AllocAndReadGptData definitions agree on every
environment in which each header that gets read passes CheckHeader: both
then make the same reads in the same order, return the same result, and
leave identical buffer contents.  (With an invalid header copy they
differ: gpt_misc skips that copy's entries read and demands at least one
valid copy, vboot_kernel reads unconditionally and ignores validity.) -/
theorem c10_alloc_read_equiv (e : GEnv)
    (h1 : ∀ b, e.diskRead 1 1 = some b →
      e.checkHeader b 0 e.driveSectors = 0)
    (h2 : ∀ b, e.diskRead (e.driveSectors - 1) 1 = some b →
      e.checkHeader b 1 e.driveSectors = 0) :
    gpt_misc.AllocAndReadGptData e = vboot_kernel.AllocAndReadGptData e :=
  AllocAndReadGptData_equiv_of_valid e h1 h2

theorem c10_witness :
    gpt_misc.AllocAndReadGptData c10OkEnv =
      vboot_kernel.AllocAndReadGptData c10OkEnv :=
  c10_alloc_read_equiv c10OkEnv (fun _ _ => rfl) (fun _ _ => rfl)

/-- C9: with bytes_per_lba zero, ending_lba zero, or a sector size larger
than KBUF_SIZE, LoadKernel returns VBERROR_INVALID_PARAMETER, requests
VBNV_RECOVERY_LK_UNSPECIFIED in NV storage, and exits before any disk
read, GPT write-back, or GPT entry update. -/
theorem c9_invalid_params (e : LKEnv) (res : LKResult)
    (h : LoadKernel e = res)
    (hbad : e.bytesPerLba = 0 ∨ e.endingLba = 0 ∨ 65536 < e.bytesPerLba) :
    res.retval = VbError.invalidParameter ∧
    res.nvRecoveryRequest = VBNV_RECOVERY_LK_UNSPECIFIED ∧
    res.gptReadAttempted = false ∧ res.wroteGpt = false ∧
    res.partsFound = 0 ∧ res.gptEvents = [] ∧
    res.bodyReadPositions = [] := by
  unfold LoadKernel at h
  by_cases h1 : e.bytesPerLba = 0 ∨ e.endingLba = 0
  · rw [if_pos h1] at h
    rw [← h]
    exact ⟨rfl, rfl, rfl, rfl, rfl, rfl, rfl⟩
  · have hbig : 65536 < e.bytesPerLba := by
      rcases hbad with hb | hb | hb
      · exact absurd (Or.inl hb) h1
      · exact absurd (Or.inr hb) h1
      · exact hb
    have hks : (lkGlobals e).kbufSectors = 0 := by
      show KBUF_SIZE / e.bytesPerLba = 0
      exact Nat.div_eq_of_lt (by unfold KBUF_SIZE; omega)
    rw [if_neg h1, if_pos hks] at h
    rw [← h]
    exact ⟨rfl, rfl, rfl, rfl, rfl, rfl, rfl⟩

theorem c9_witness :
    (c9Env.bytesPerLba = 0 ∨ c9Env.endingLba = 0 ∨
       65536 < c9Env.bytesPerLba) ∧
    (LoadKernel c9Env).retval = VbError.invalidParameter ∧
    (LoadKernel c9Env).nvRecoveryRequest = VBNV_RECOVERY_LK_UNSPECIFIED :=
  ⟨Or.inl rfl,
   (c9_invalid_params c9Env (LoadKernel c9Env) rfl (Or.inl rfl)).1,
   (c9_invalid_params c9Env (LoadKernel c9Env) rfl (Or.inl rfl)).2.1⟩

/-- C7 counterexample: a call with no recovery boot flag but a nonzero NV
RECOVERY_REQUEST runs in Normal mode, not Recovery, so the claim that a
nonzero NV recovery request forces Recovery mode is false as stated. -/
theorem c7_counterexample :
    c7CexEnv.nvRecoveryRequestIn ≠ 0 ∧
    (LoadKernel c7CexEnv).shcallRecorded = true ∧
    (LoadKernel c7CexEnv).bootMode = BootMode.normal ∧
    (LoadKernel c7CexEnv).bootMode ≠ BootMode.recovery := by decide

/-- C7 (amended): the boot mode LoadKernel derives (and records in the
shared call record) depends only on params->boot_flags: Recovery iff
BOOT_FLAG_RECOVERY is set, else Developer iff BOOT_FLAG_DEVELOPER is set,
else Normal.  The NV RECOVERY_REQUEST field, the GBB force-dev flag and
any previous-boot failure are never consulted: changing them changes
nothing in the call's outcome. -/
theorem c7_boot_mode (e : LKEnv) (res : LKResult) (h : LoadKernel e = res)
    (hrec : res.shcallRecorded = true) :
    (res.bootMode = BootMode.recovery ↔
       e.bootFlags &&& BOOT_FLAG_RECOVERY ≠ 0) ∧
    (res.bootMode = BootMode.dev ↔
       (e.bootFlags &&& BOOT_FLAG_RECOVERY = 0 ∧
        e.bootFlags &&& BOOT_FLAG_DEVELOPER ≠ 0)) ∧
    (res.bootMode = BootMode.normal ↔
       (e.bootFlags &&& BOOT_FLAG_RECOVERY = 0 ∧
        e.bootFlags &&& BOOT_FLAG_DEVELOPER = 0)) ∧
    LoadKernel { e with nvRecoveryRequestIn := 0, gbbForceDevOn := false,
                        prevBootFailed := false } = res := by
  have hm : res.bootMode = (lkGlobals e).bootMode := by
    unfold LoadKernel at h
    split at h
    · rw [← h] at hrec
      cases hrec
    · split at h
      · rw [← h]
      · split at h
        · rw [← h]
        · rw [← h]
          rfl
  have hind :
      LoadKernel
        { e with nvRecoveryRequestIn := 0, gbbForceDevOn := false,
                 prevBootFailed := false } = LoadKernel e := by
    cases e
    rfl
  refine ⟨?_, ?_, ?_, hind.trans h⟩
  all_goals rw [hm]
  all_goals unfold lkGlobals
  all_goals simp only
  all_goals by_cases h1 : e.bootFlags &&& BOOT_FLAG_RECOVERY ≠ 0
  all_goals by_cases h2 : e.bootFlags &&& BOOT_FLAG_DEVELOPER ≠ 0
  all_goals simp_all

theorem c7_witness :
    (LoadKernel envBase).shcallRecorded = true ∧
    ((LoadKernel envBase).bootMode = BootMode.normal ↔
       (envBase.bootFlags &&& BOOT_FLAG_RECOVERY = 0 ∧
        envBase.bootFlags &&& BOOT_FLAG_DEVELOPER = 0)) :=
  ⟨by decide,
   (c7_boot_mode envBase (LoadKernel envBase) rfl (by decide)).2.2.1⟩

theorem runLoop_found_eq (g : LKGlobals) (cs : List Cand) (st : LoopSt)
    (h : st.foundPartitions = st.partsFound) :
    (runLoop g st cs).foundPartitions = (runLoop g st cs).partsFound := by
  induction cs generalizing st with
  | nil => exact h
  | cons c rest ih =>
    rw [runLoop]
    split
    · rw [processCand_found, processCand_partsFound, h]
    · exact ih _ (by rw [processCand_found, processCand_partsFound, h])

theorem lkMain_retval (e : LKEnv) :
    (lkMain e).retval =
      if 0 ≤ (lkStF e).goodPartition then VbError.success
      else if 0 < (lkStF e).foundPartitions then VbError.invalidKernelFound
      else VbError.noKernelFound := by
  simp only [lkMain, decide_eq_true_eq]

theorem lkMain_nv (e : LKEnv) :
    (lkMain e).nvRecoveryRequest =
      if 0 ≤ (lkStF e).goodPartition then VBNV_RECOVERY_NOT_REQUESTED
      else if 0 < (lkStF e).foundPartitions then VBNV_RECOVERY_RW_INVALID_OS
      else VBNV_RECOVERY_RW_NO_OS := by
  simp only [lkMain, decide_eq_true_eq]
  by_cases hgood : 0 ≤ (lkStF e).goodPartition
  · simp [hgood]
  · by_cases hf : 0 < (lkStF e).foundPartitions
    all_goals simp [hgood, hf]

theorem lkStF_good_found (e : LKEnv)
    (hg : 0 ≤ (lkStF e).goodPartition) :
    0 < (lkStF e).foundPartitions := by
  unfold lkStF at hg ⊢
  split at hg
  · rename_i hcond
    rw [if_pos hcond]
    rw [runLoop_found_eq (lkGlobals e) e.cands (initLoopSt e) rfl]
    rcases runLoop_good_master (lkGlobals e) e.cands (initLoopSt e) rfl rfl
        rfl with ⟨_, hg2, _⟩ | ⟨k, c, _, _, hget, _, _, _, _, hbt, hbf, _⟩
    · rw [hg2] at hg
      omega
    · cases hbc : brkCond (lkGlobals e) c
      · obtain ⟨hlt, _⟩ := List.get?_eq_some.mp hget
        rw [hbf hbc]
        have h0 : (initLoopSt e).partsFound = 0 := rfl
        omega
      · rw [hbt hbc]
        omega
  · rename_i hcond
    rw [if_neg hcond]
    simp [initLoopSt] at hg

/-- C5: with valid parameters and a readable recovery key, LoadKernel
classifies failures as the claim states: at least one kernel partition
found but none usable gives VBERROR_INVALID_KERNEL_FOUND with NV recovery
request VBNV_RECOVERY_RW_INVALID_OS; no kernel partition found gives
VBERROR_NO_KERNEL_FOUND with VBNV_RECOVERY_RW_NO_OS; success stores
VBNV_RECOVERY_NOT_REQUESTED. -/
theorem c5_failure_classification (e : LKEnv) (res : LKResult)
    (h : LoadKernel e = res) (hb : e.bytesPerLba ≠ 0) (he : e.endingLba ≠ 0)
    (hk : (lkGlobals e).kbufSectors ≠ 0)
    (hgbb : (lkGlobals e).bootMode = BootMode.recovery →
      e.gbbRecoveryKeyErr = 0) :
    (0 < res.foundPartitions → res.goodPartition < 0 →
       res.retval = VbError.invalidKernelFound ∧
       res.nvRecoveryRequest = VBNV_RECOVERY_RW_INVALID_OS) ∧
    (res.foundPartitions = 0 →
       res.retval = VbError.noKernelFound ∧
       res.nvRecoveryRequest = VBNV_RECOVERY_RW_NO_OS) ∧
    (res.retval = VbError.success →
       res.nvRecoveryRequest = VBNV_RECOVERY_NOT_REQUESTED) := by
  rw [LoadKernel_main e hb he hk hgbb] at h
  subst h
  have hfp : (lkMain e).foundPartitions = (lkStF e).foundPartitions := rfl
  have hgp : (lkMain e).goodPartition = (lkStF e).goodPartition := rfl
  refine ⟨?_, ?_, ?_⟩
  · intro hf hg
    rw [hfp] at hf
    rw [hgp] at hg
    have hng : ¬(0 ≤ (lkStF e).goodPartition) := by omega
    rw [lkMain_retval, lkMain_nv, if_neg hng, if_neg hng, if_pos hf,
      if_pos hf]
    exact ⟨rfl, rfl⟩
  · intro hf
    rw [hfp] at hf
    have hng : ¬(0 ≤ (lkStF e).goodPartition) := by
      intro hg
      have := lkStF_good_found e hg
      omega
    rw [lkMain_retval, lkMain_nv, if_neg hng, if_neg hng,
      if_neg (by omega), if_neg (by omega)]
    exact ⟨rfl, rfl⟩
  · intro hs
    rw [lkMain_retval] at hs
    by_cases hg : 0 ≤ (lkStF e).goodPartition
    · rw [lkMain_nv, if_pos hg]
    · rw [if_neg hg] at hs
      by_cases hf : 0 < (lkStF e).foundPartitions
      · rw [if_pos hf] at hs
        cases hs
      · rw [if_neg hf] at hs
        cases hs

theorem c5_witness :
    (LoadKernel c5Env).foundPartitions = 0 ∧
    (LoadKernel c5Env).retval = VbError.noKernelFound ∧
    (LoadKernel c5Env).nvRecoveryRequest = VBNV_RECOVERY_RW_NO_OS := by
  have hc := c5_failure_classification c5Env (LoadKernel c5Env) rfl
    (by decide) (by decide) (by decide) (by decide)
  have hf : (LoadKernel c5Env).foundPartitions = 0 := by decide
  exact ⟨hf, (hc.2.1 hf).1, (hc.2.1 hf).2⟩

/-- C2: in recovery mode LoadKernel verifies candidates against the
recovery sub-key read from the GBB rather than shared->kernel_subkey, no
candidate is ever rejected for key-version or combined-version rollback,
and the scan stops at the first candidate whose body verifies: when a good
partition is recorded at scan position k, exactly k+1 candidates were
examined and the last examined one is the good one. -/
theorem c2_recovery (e : LKEnv) (res : LKResult) (h : LoadKernel e = res)
    (hb : e.bytesPerLba ≠ 0) (he : e.endingLba ≠ 0)
    (hk : (lkGlobals e).kbufSectors ≠ 0)
    (hrec : e.bootFlags &&& BOOT_FLAG_RECOVERY ≠ 0)
    (hgbb : e.gbbRecoveryKeyErr = 0) :
    res.subkeySource = SubkeySource.recoveryGbb ∧
    (∀ p ∈ res.parts, p.checkResult ≠ LkpCheck.keyRollback ∧
       p.checkResult ≠ LkpCheck.kernelRollback) ∧
    (∀ k, res.goodScanPos = some k →
       res.partsFound = k + 1 ∧
       ∃ p, res.parts.get? k = some p ∧
         p.checkResult = LkpCheck.kernelGood) := by
  have hmode : (lkGlobals e).bootMode = BootMode.recovery := by
    simp [lkGlobals, hrec]
  rw [LoadKernel_main e hb he hk (fun _ => hgbb)] at h
  subst h
  have hsub : (lkMain e).subkeySource = SubkeySource.recoveryGbb := by
    simp [lkMain, hmode]
  have hparts : (lkMain e).parts = (lkStF e).parts := rfl
  have hsp : (lkMain e).goodScanPos = (lkStF e).goodScanPos := rfl
  have hpf : (lkMain e).partsFound = (lkStF e).partsFound := rfl
  refine ⟨hsub, ?_, ?_⟩
  · rw [hparts]
    unfold lkStF
    split
    · obtain ⟨l, hl, hall⟩ := runLoop_parts_suffix (lkGlobals e) e.cands
        (initLoopSt e)
      rw [hl]
      intro p hp
      have hp2 : p ∈ l := by
        have hinit : (initLoopSt e).parts = [] := rfl
        rw [hinit] at hp
        simpa using hp
      obtain ⟨c, ge, kb, kbs, _, hrec2⟩ := hall p hp2
      rw [hrec2]
      exact candStep_check_recovery (lkGlobals e) ge kb kbs c hmode
    · intro p hp
      have hinit : (initLoopSt e).parts = [] := rfl
      rw [hinit] at hp
      cases hp
  · intro k hk2
    rw [hsp] at hk2
    rw [hpf, hparts]
    unfold lkStF at hk2 ⊢
    split at hk2
    case isTrue hcond =>
      rw [if_pos hcond]
      rcases runLoop_good_master (lkGlobals e) e.cands (initLoopSt e) rfl
          rfl rfl with ⟨hn, _, _⟩ |
          ⟨k2, c, hs2, _, _, _, _, _, hp2, hbt, _, _⟩
      · rw [hn] at hk2
        cases hk2
      · rw [hs2] at hk2
        injection hk2 with hkk
        subst hkk
        have hbc : brkCond (lkGlobals e) c = true := by
          unfold brkCond
          rw [hmode]
          simp
        exact ⟨hbt hbc, hp2⟩
    case isFalse hcond =>
      simp [initLoopSt] at hk2

theorem c2_witness :
    (LoadKernel c2Env).subkeySource = SubkeySource.recoveryGbb ∧
    (LoadKernel c2Env).goodScanPos = some 0 ∧
    (LoadKernel c2Env).partsFound = 1 := by
  have hc := c2_recovery c2Env (LoadKernel c2Env) rfl (by decide)
    (by decide) (by decide) (by decide) (by decide)
  exact ⟨hc.1, by decide, (hc.2.2 0 (by decide)).1⟩

/-- C4: once a good partition is recorded at scan position k with more
candidates remaining, the scan stops there if and only if the boot mode is
Recovery, or the good partition's key block was not fully
signature-verified, or its combined version equals the secure-counter
value on entry; otherwise the scan runs over the whole remaining table and
reads no kernel body after position k. -/
theorem c4_early_exit (e : LKEnv) (res : LKResult) (h : LoadKernel e = res)
    (hb : e.bytesPerLba ≠ 0) (he : e.endingLba ≠ 0)
    (hk : (lkGlobals e).kbufSectors ≠ 0)
    (hgbb : (lkGlobals e).bootMode = BootMode.recovery →
      e.gbbRecoveryKeyErr = 0)
    (k : Nat) (c : Cand) (hsp : res.goodScanPos = some k)
    (hc : e.cands.get? k = some c) :
    (k + 1 < e.cands.length →
      (res.partsFound = k + 1 ↔
        ((lkGlobals e).bootMode = BootMode.recovery ∨ res.goodKbv = false ∨
         res.goodCombined = e.sharedKernelVersionTpm))) ∧
    (((lkGlobals e).bootMode ≠ BootMode.recovery ∧ res.goodKbv = true ∧
      res.goodCombined ≠ e.sharedKernelVersionTpm) →
      res.partsFound = e.cands.length ∧
      ∀ x ∈ res.bodyReadPositions, x ≤ k) := by
  rw [LoadKernel_main e hb he hk hgbb] at h
  subst h
  have hsp2 : (lkStF e).goodScanPos = some k := hsp
  have hpf : (lkMain e).partsFound = (lkStF e).partsFound := rfl
  have hkbv : (lkMain e).goodKbv = (lkStF e).goodKbv := rfl
  have hcmb : (lkMain e).goodCombined = (lkStF e).goodCombined := rfl
  have hbrp : (lkMain e).bodyReadPositions =
      (lkStF e).bodyReadPositions := rfl
  have htpm : (lkGlobals e).tpm = e.sharedKernelVersionTpm := rfl
  rw [hpf, hkbv, hcmb, hbrp]
  unfold lkStF at hsp2 ⊢
  split at hsp2
  case isFalse hcond => simp [initLoopSt] at hsp2
  case isTrue hcond =>
    rw [if_pos hcond]
    rcases runLoop_good_master (lkGlobals e) e.cands (initLoopSt e) rfl rfl
        rfl with ⟨hn, _, _⟩ |
        ⟨k2, c2, hs2, _, hget, _, hkbv2, hcmb2, _, hbt, hbf, hbody⟩
    · rw [hn] at hsp2
      cases hsp2
    · rw [hs2] at hsp2
      injection hsp2 with hkk
      subst hkk
      have hinit0 : (initLoopSt e).partsFound = 0 := rfl
      rw [hinit0] at hget hbf
      simp only [Nat.sub_zero] at hget
      rw [hc] at hget
      injection hget with hcc
      subst hcc
      have hbcprop : brkCond (lkGlobals e) c = true ↔
          ((lkGlobals e).bootMode = BootMode.recovery ∨
           candQualifies (lkGlobals e) c = false ∨
           candCombined c = (lkGlobals e).tpm) := by
        unfold brkCond
        cases hq : candQualifies (lkGlobals e) c
        all_goals simp [hq]
      rw [hkbv2, hcmb2, ← htpm]
      constructor
      · intro hlen
        cases hbc : brkCond (lkGlobals e) c
        · have hfull := hbf hbc
          constructor
          · intro hpfk
            rw [hpfk] at hfull
            omega
          · intro hor
            exact absurd (hbcprop.mpr hor) (by simp [hbc])
        · exact ⟨fun _ => hbcprop.mp hbc, fun _ => hbt hbc⟩
      · intro ⟨hm, hkv, hcv⟩
        have hbc : brkCond (lkGlobals e) c = false := by
          cases hbc2 : brkCond (lkGlobals e) c
          · rfl
          · rcases hbcprop.mp hbc2 with h1 | h1 | h1
            · exact absurd h1 hm
            · rw [hkv] at h1
              cases h1
            · exact absurd h1 hcv
        have hfull := hbf hbc
        refine ⟨by rw [hfull]; omega, ?_⟩
        intro x hx
        rcases hbody x hx with hmem | hle
        · have hinitb : (initLoopSt e).bodyReadPositions = [] := rfl
          rw [hinitb] at hmem
          cases hmem
        · exact hle

theorem c4_witness :
    (LoadKernel c4Env).goodScanPos = some 0 ∧
    (LoadKernel c4Env).partsFound = 0 + 1 := by
  have hc := c4_early_exit c4Env (LoadKernel c4Env) rfl (by decide)
    (by decide) (by decide) (by decide) 0 candEq (by decide) (by decide)
  exact ⟨by decide, (hc.1 (by decide)).mpr (Or.inr (Or.inr (by decide)))⟩

theorem mem_take_of_get? {α : Type} (l : List α) (k n : Nat) (a : α)
    (h : l.get? k = some a) (hk : k < n) : a ∈ l.take n := by
  have h2 : (l.take n).get? k = some a := by
    rw [List.get?_eq_getElem?] at h ⊢
    rw [List.getElem?_take_of_lt hk]
    exact h
  exact List.get?_mem h2

/-- C1 counterexample: in normal mode with secure counter 10, a
signature-verified, preamble-verified candidate with combined version 9 is
rejected for rollback and does not enter the lowest-version tracking; a
second one with combined version 15 is selected.  The claim predicts a
final counter of max(10, min(9, 15)) = 10, but the code stores 15. -/
theorem c1_counterexample :
    0 ≤ (LoadKernel c1CexEnv).goodPartition ∧
    c1CexEnv.cands = [candRollback, candGoodB] ∧
    candRollback.kbSigOk = true ∧ candRollback.preambleOk = true ∧
    candGoodB.kbSigOk = true ∧ candGoodB.preambleOk = true ∧
    candCombined candRollback = 9 ∧ candCombined candGoodB = 15 ∧
    c1CexEnv.sharedKernelVersionTpm = 10 ∧
    (LoadKernel c1CexEnv).partsFound = 2 ∧
    (LoadKernel c1CexEnv).parts =
      [{ gptIndex := 1, sectorStart := 100, sectorCount := 200,
         checkResult := LkpCheck.kernelRollback, combinedVersion := 9,
         kbValidFlag := false },
       { gptIndex := 2, sectorStart := 100, sectorCount := 200,
         checkResult := LkpCheck.kernelGood, combinedVersion := 15,
         kbValidFlag := true }] ∧
    (LoadKernel c1CexEnv).kernelVersionTpm = 15 ∧
    max 10 (min 9 15) ≠ 15 := by decide

/-- C1 (amended): let V be shared->kernel_version_tpm on entry and L the
minimum combined version over the examined candidates that reach the
version-tracking point with key_block_valid still set (signature verified,
mode flags matched, key version in range, preamble verified, and — outside
recovery and developer modes — combined version not below V).  If a good
partition is recorded and L is defined (not the 0xffffffff sentinel), the
counter becomes max(V, L); otherwise it is unchanged.  And whenever the
selected partition's key block was fully verified with combined version C,
the final value is at most max(V, C) and exceeds V only if some fully
verified candidate had combined version above V. -/
theorem c1_anti_rollback (e : LKEnv) (res : LKResult)
    (h : LoadKernel e = res) (hb : e.bytesPerLba ≠ 0) (he : e.endingLba ≠ 0)
    (hk : (lkGlobals e).kbufSectors ≠ 0)
    (hgbb : (lkGlobals e).bootMode = BootMode.recovery →
      e.gbbRecoveryKeyErr = 0) :
    (res.kernelVersionTpm =
      if 0 ≤ res.goodPartition ∧
         scanLowest (lkGlobals e) (e.cands.take res.partsFound)
           LOWEST_TPM_VERSION ≠ LOWEST_TPM_VERSION then
        max e.sharedKernelVersionTpm
          (scanLowest (lkGlobals e) (e.cands.take res.partsFound)
            LOWEST_TPM_VERSION)
      else e.sharedKernelVersionTpm) ∧
    (0 ≤ res.goodPartition → res.goodKbv = true →
      res.kernelVersionTpm ≤
        max e.sharedKernelVersionTpm res.goodCombined ∧
      (e.sharedKernelVersionTpm < res.kernelVersionTpm →
        ∃ c, c ∈ e.cands.take res.partsFound ∧
          candQualifies (lkGlobals e) c = true ∧
          e.sharedKernelVersionTpm < candCombined c)) := by
  rw [LoadKernel_main e hb he hk hgbb] at h
  subst h
  have hpf : (lkMain e).partsFound = (lkStF e).partsFound := rfl
  have hgp : (lkMain e).goodPartition = (lkStF e).goodPartition := rfl
  have hkbv : (lkMain e).goodKbv = (lkStF e).goodKbv := rfl
  have hcmb : (lkMain e).goodCombined = (lkStF e).goodCombined := rfl
  have htpmout : (lkMain e).kernelVersionTpm =
      if 0 ≤ (lkStF e).goodPartition ∧
         (lkStF e).lowestVersion ≠ LOWEST_TPM_VERSION ∧
         (lkStF e).lowestVersion > e.sharedKernelVersionTpm then
        (lkStF e).lowestVersion
      else e.sharedKernelVersionTpm := by
    simp only [lkMain, decide_eq_true_eq]
  have hlow : (lkStF e).lowestVersion =
      scanLowest (lkGlobals e) (e.cands.take (lkStF e).partsFound)
        LOWEST_TPM_VERSION := by
    unfold lkStF
    split
    · have h2 := runLoop_lowest (lkGlobals e) e.cands (initLoopSt e)
      have h3 : (initLoopSt e).partsFound = 0 := rfl
      have h4 : (initLoopSt e).lowestVersion = LOWEST_TPM_VERSION := rfl
      rw [h3, h4, Nat.sub_zero] at h2
      exact h2
    · have h3 : (initLoopSt e).partsFound = 0 := rfl
      rw [h3]
      simp [initLoopSt, scanLowest]
  have hsel : 0 ≤ (lkStF e).goodPartition →
      ∃ k c, e.cands.get? k = some c ∧ k < (lkStF e).partsFound ∧
        (lkStF e).goodKbv = candQualifies (lkGlobals e) c ∧
        (lkStF e).goodCombined = candCombined c := by
    unfold lkStF
    split
    · intro hg
      rcases runLoop_good_master (lkGlobals e) e.cands (initLoopSt e) rfl
          rfl rfl with ⟨_, hgp2, _⟩ |
          ⟨k, c, _, _, hget, _, hkbv2, hcmb2, _, hbt, hbf, _⟩
      · rw [hgp2] at hg
        omega
      · have h3 : (initLoopSt e).partsFound = 0 := rfl
        rw [h3, Nat.sub_zero] at hget
        obtain ⟨hlt, _⟩ := List.get?_eq_some.mp hget
        refine ⟨k, c, hget, ?_, hkbv2, hcmb2⟩
        cases hbc : brkCond (lkGlobals e) c
        · rw [hbf hbc, h3]
          omega
        · rw [hbt hbc]
          omega
    · intro hg
      have h3 : (initLoopSt e).goodPartition = -1 := rfl
      rw [h3] at hg
      omega
  constructor
  · rw [htpmout, hpf, hgp, ← hlow]
    by_cases hg : 0 ≤ (lkStF e).goodPartition
    · by_cases hsent : (lkStF e).lowestVersion = LOWEST_TPM_VERSION
      · rw [if_neg (by simp [hsent]), if_neg (by simp [hsent])]
      · by_cases hgt : (lkStF e).lowestVersion > e.sharedKernelVersionTpm
        · rw [if_pos ⟨hg, hsent, hgt⟩, if_pos ⟨hg, hsent⟩]
          omega
        · rw [if_neg (by intro hc; exact hgt hc.2.2),
            if_pos ⟨hg, hsent⟩]
          omega
    · rw [if_neg (by intro hc; exact hg hc.1),
        if_neg (by intro hc; exact hg hc.1)]
  · intro hg hkv
    rw [hgp] at hg
    rw [hkbv] at hkv
    obtain ⟨k, c, hget, hklt, hkbv2, hcmb2⟩ := hsel hg
    have hq : candQualifies (lkGlobals e) c = true := by
      rw [hkv] at hkbv2
      exact hkbv2.symm
    have hmem : c ∈ e.cands.take (lkMain e).partsFound := by
      rw [hpf]
      exact mem_take_of_get? e.cands k (lkStF e).partsFound c hget hklt
    have hL := scanLowest_le_mem (lkGlobals e)
      (e.cands.take (lkStF e).partsFound) LOWEST_TPM_VERSION c
      (by rw [hpf] at hmem; exact hmem) hq
    rw [← hlow] at hL
    constructor
    · rw [htpmout, hcmb, hcmb2]
      split
      · exact le_trans (le_trans hL (le_max_right _ _))
          (max_le_max_left _ (le_refl _))
      · exact le_max_left _ _
    · intro hlt2
      rw [htpmout] at hlt2
      split at hlt2
      case isTrue hcond =>
        rcases scanLowest_mem_or_acc (lkGlobals e)
            (e.cands.take (lkStF e).partsFound) LOWEST_TPM_VERSION with
            hacc | ⟨c2, hm2, hq2, hv2⟩
        · rw [← hlow] at hacc
          exact absurd hacc hcond.2.1
        · rw [← hlow] at hv2
          refine ⟨c2, ?_, hq2, ?_⟩
          · rw [hpf]
            exact hm2
          · rw [← hv2]
            exact hcond.2.2
      case isFalse => omega

theorem c1_witness :
    0 ≤ (LoadKernel envBase).goodPartition ∧
    (LoadKernel envBase).goodKbv = true ∧
    (LoadKernel envBase).kernelVersionTpm ≤
      max envBase.sharedKernelVersionTpm
        (LoadKernel envBase).goodCombined := by
  have hc := c1_anti_rollback envBase (LoadKernel envBase) rfl (by decide)
    (by decide) (by decide) (by decide)
  exact ⟨by decide, by decide,
    (hc.2 (by decide) (by decide)).1⟩

/-- C3 counterexample: a candidate whose start-of-partition read fails is
recorded with check_result readStart and the scan continues, but
GptUpdateKernelEntry(GPT_UPDATE_ENTRY_BAD) IS called for its entry — and
the BAD policy zeroes the priority/tries/successful bits, so the claim
that a read error leaves the GPT entry unmutated is false as stated. -/
theorem c3_counterexample :
    c3CexEnv.cands.get? 0 = some candReadFail ∧
    candReadFail.readStartOk = false ∧
    (LoadKernel c3CexEnv).parts =
      [{ gptIndex := 1, sectorStart := 100, sectorCount := 200,
         checkResult := LkpCheck.readStart, combinedVersion := 0,
         kbValidFlag := false },
       { gptIndex := 2, sectorStart := 100, sectorCount := 200,
         checkResult := LkpCheck.kernelGood, combinedVersion := 15,
         kbValidFlag := true }] ∧
    (LoadKernel c3CexEnv).gptEvents =
      [(0, GptUpdateType.updateBad), (1, GptUpdateType.updateTry)] ∧
    GptUpdateKernelEntryBad { priority := 3, tries := 2, successful := 0 } ≠
      { priority := 3, tries := 2, successful := 0 } := by decide

/-- C3 (amended): a disk read failure while examining a candidate (start
of partition or kernel body) aborts that candidate, records the readStart
or readData check_result in the shared record, and the scan continues with
the next candidate — but, exactly like non-read errors, the candidate IS
marked BAD: GptUpdateKernelEntry(GPT_UPDATE_ENTRY_BAD) is invoked on its
entry, whose policy zeroes the priority, tries and successful bits. -/
theorem c3_read_error (e : LKEnv) (res : LKResult) (h : LoadKernel e = res)
    (hb : e.bytesPerLba ≠ 0) (he : e.endingLba ≠ 0)
    (hk : (lkGlobals e).kbufSectors ≠ 0)
    (hgbb : (lkGlobals e).bootMode = BootMode.recovery →
      e.gbbRecoveryKeyErr = 0)
    (hgpt : e.gptReadOk = true ∧ e.gptInitOk = true)
    (i : Nat) (c : Cand) (hget : e.cands.get? i = some c)
    (hexam : i < res.partsFound)
    (hsz : ¬c.partSize < (lkGlobals e).kbufSectors)
    (hrd : c.readStartOk = false) :
    res.parts.get? i = some (readStartFailRecord c) ∧
    (c.gptIndex, GptUpdateType.updateBad) ∈ res.gptEvents ∧
    (i + 1 < e.cands.length → i + 1 < res.partsFound) ∧
    (∀ (g2 : LKGlobals) (ge : Bool) (kb kbs : Nat) (c2 : Cand),
      ((candStep g2 ge kb kbs c2).check = LkpCheck.readStart ∨
       (candStep g2 ge kb kbs c2).check = LkpCheck.readData) →
      (candStep g2 ge kb kbs c2).event = some GptUpdateType.updateBad ∧
      (candStep g2 ge kb kbs c2).brk = false) ∧
    (∀ a, GptUpdateKernelEntryBad a =
      { priority := 0, tries := 0, successful := 0 }) := by
  rw [LoadKernel_main e hb he hk hgbb] at h
  subst h
  have hparts : (lkMain e).parts = (lkStF e).parts := rfl
  have hev : (lkMain e).gptEvents = (lkStF e).gptEvents := rfl
  have hpf : (lkMain e).partsFound = (lkStF e).partsFound := rfl
  have hstf : lkStF e = runLoop (lkGlobals e) (initLoopSt e) e.cands := by
    unfold lkStF
    rw [if_pos hgpt]
  rw [hpf, hstf] at hexam
  have hmain := runLoop_read_fail (lkGlobals e) e.cands (initLoopSt e) i c
    rfl hget (by
      have h0 : (initLoopSt e).partsFound = 0 := rfl
      rw [h0]
      omega) hsz hrd
  have h0 : (initLoopSt e).partsFound = 0 := rfl
  rw [h0] at hmain
  refine ⟨?_, ?_, ?_, ?_, fun a => rfl⟩
  · rw [hparts, hstf]
    have := hmain.1
    simpa using this
  · rw [hev, hstf]
    exact hmain.2.1
  · intro hlen
    rw [hpf, hstf]
    have := hmain.2.2 hlen
    omega
  · intro g2 ge kb kbs c2 hc2
    have hrb := candStep_read_bad g2 ge kb kbs c2 hc2
    exact ⟨hrb.1, hrb.2.2⟩

theorem c3_witness :
    (LoadKernel c3CexEnv).parts.get? 0 =
      some (readStartFailRecord candReadFail) ∧
    (candReadFail.gptIndex, GptUpdateType.updateBad) ∈
      (LoadKernel c3CexEnv).gptEvents := by
  have hc := c3_read_error c3CexEnv (LoadKernel c3CexEnv) rfl (by decide)
    (by decide) (by decide) (by decide) (by decide) 0 candReadFail
    (by decide) (by decide) (by decide) (by decide)
  exact ⟨hc.1, hc.2.1⟩

/-- C8: when a candidate's key block fails signature verification in
developer mode, it is rejected as self-signed when DEV_BOOT_SIGNED_ONLY
is set; otherwise it survives the key-block stage exactly when the
SHA-512 hash check passes, and if such a candidate is selected its key
block is recorded as not fully trusted, so LoadKernel does not set
VBSD_KERNEL_KEY_VERIFIED in shared->flags.  In non-developer modes a
signature failure always marks the candidate BAD. -/
theorem c8_dev_self_signed :
    (∀ (g : LKGlobals) (ge : Bool) (kb kbs : Nat) (c : Cand),
      ¬c.partSize < g.kbufSectors → c.readStartOk = true →
      c.kbSigOk = false →
      ((g.bootMode = BootMode.dev → g.requireOfficialOs ≠ 0 →
          (candStep g ge kb kbs c).check = LkpCheck.selfSigned ∧
          (candStep g ge kb kbs c).event = some GptUpdateType.updateBad ∧
          (candStep g ge kb kbs c).good = false) ∧
       (g.bootMode = BootMode.dev → g.requireOfficialOs = 0 →
          (c.kbHashOk = false →
            (candStep g ge kb kbs c).check = LkpCheck.keyBlockHash ∧
            (candStep g ge kb kbs c).event = some GptUpdateType.updateBad ∧
            (candStep g ge kb kbs c).good = false) ∧
          (c.kbHashOk = true →
            (candStep g ge kb kbs c).check ≠ LkpCheck.keyBlockSig ∧
            (candStep g ge kb kbs c).check ≠ LkpCheck.keyBlockHash ∧
            (candStep g ge kb kbs c).check ≠ LkpCheck.selfSigned)) ∧
       (g.bootMode ≠ BootMode.dev →
          (candStep g ge kb kbs c).check = LkpCheck.keyBlockSig ∧
          (candStep g ge kb kbs c).event = some GptUpdateType.updateBad ∧
          (candStep g ge kb kbs c).good = false) ∧
       ((candStep g ge kb kbs c).good = true →
          (candStep g ge kb kbs c).kbv = false))) ∧
    (∀ (e : LKEnv) (res : LKResult), LoadKernel e = res →
      (res.goodKbv = false → res.sharedFlags = e.sharedFlagsIn) ∧
      (res.goodKbv = true →
        res.sharedFlags = e.sharedFlagsIn ||| VBSD_KERNEL_KEY_VERIFIED)) := by
  constructor
  · intro g ge kb kbs c hsz hread hsig
    refine ⟨?_, ?_, ?_, ?_⟩
    · intro hdev hreq
      have hp : prePhase g c = PrePhase.badPre LkpCheck.selfSigned false := by
        unfold prePhase
        rw [if_neg hsz, if_neg (by simp [hread]),
          if_neg (fun hcc => hcc.2 hdev), if_pos ⟨hsig, hreq⟩]
      simp [candStep, hp]
    · intro hdev hreq0
      constructor
      · intro hhash
        have hp : prePhase g c =
            PrePhase.badPre LkpCheck.keyBlockHash false := by
          unfold prePhase
          rw [if_neg hsz, if_neg (by simp [hread]),
            if_neg (fun hcc => hcc.2 hdev),
            if_neg (fun hcc => hcc.2 hreq0), if_pos ⟨hsig, hhash⟩]
        simp [candStep, hp]
      · intro hhash
        cases hp : prePhase g c with
        | badPre ch cr =>
          have hch : ch ≠ LkpCheck.keyBlockSig ∧
              ch ≠ LkpCheck.keyBlockHash ∧
              ch ≠ LkpCheck.selfSigned := by
            unfold prePhase at hp
            rw [if_neg hsz, if_neg (by simp [hread]),
              if_neg (fun hcc => hcc.2 hdev),
              if_neg (fun hcc => hcc.2 hreq0),
              if_neg (fun hcc => by rw [hhash] at hcc; cases hcc.2),
              if_neg (fun hcc => hcc.1 hdev)] at hp
            repeat' split at hp
            all_goals cases hp
            all_goals simp
          have hcs : (candStep g ge kb kbs c).check = ch := by
            simp [candStep, hp]
          rw [hcs]
          exact hch
        | through kbv =>
          simp only [candStep, hp]
          repeat' split
          all_goals simp
    · intro hdev
      have hp : prePhase g c =
          PrePhase.badPre LkpCheck.keyBlockSig false := by
        unfold prePhase
        rw [if_neg hsz, if_neg (by simp [hread]), if_pos ⟨hsig, hdev⟩]
      simp [candStep, hp]
    · intro hgood
      have hf := candStep_good_fields g ge kb kbs c hgood
      rw [hf.1]
      unfold candQualifies
      rw [candKbvDef_eq_false_of_sig g c hsig]
      simp
  · intro e res h
    unfold LoadKernel at h
    split at h
    · rw [← h]
      exact ⟨fun _ => rfl, fun hkv => Bool.noConfusion hkv⟩
    · split at h
      · rw [← h]
        exact ⟨fun _ => rfl, fun hkv => Bool.noConfusion hkv⟩
      · split at h
        · rw [← h]
          exact ⟨fun _ => rfl, fun hkv => Bool.noConfusion hkv⟩
        · rw [← h]
          refine ⟨fun hkv => ?_, fun hkv => ?_⟩
          · show (if (lkStF e).goodKbv then
                e.sharedFlagsIn ||| VBSD_KERNEL_KEY_VERIFIED
              else e.sharedFlagsIn) = e.sharedFlagsIn
            have hkv2 : (lkStF e).goodKbv = false := hkv
            rw [hkv2]
            simp
          · show (if (lkStF e).goodKbv then
                e.sharedFlagsIn ||| VBSD_KERNEL_KEY_VERIFIED
              else e.sharedFlagsIn) =
              e.sharedFlagsIn ||| VBSD_KERNEL_KEY_VERIFIED
            have hkv2 : (lkStF e).goodKbv = true := hkv
            rw [hkv2]
            simp

theorem c8_witness :
    (LoadKernel c8Env).retval = VbError.success ∧
    (LoadKernel c8Env).goodKbv = false ∧
    (LoadKernel c8Env).sharedFlags = c8Env.sharedFlagsIn := by
  have hc := (c8_dev_self_signed.2 c8Env (LoadKernel c8Env) rfl).1
  exact ⟨by decide, by decide, hc (by decide)⟩

end Vboot
